import Mathlib

/-!
Shallow embedding of the S3 compatibility-check harness
(`src/framework/base_check.py`, `src/framework/check_runner.py`,
`src/checks/check_objects.py`, `src/checks/check_buckets.py`,
`src/checks/check_metadata.py`) in Lean 4.

Modelling conventions:
* The boto3 wrapper (`framework/s3_client.py`) normalises every operation
  failure to `S3ClientError{message, error_code, status_code}`; it is modelled
  as a `Gateway` record of response functions returning
  `Except S3ClientError <payload>`.  Payload structures carry exactly the
  fields the checks read; a Python `response.get(k)` on an optional field
  becomes an `Option` access, `k in response` becomes `Option.isSome`.
* `StreamingBody.read()` (used as `response['Body'].read()`) happens after
  `get_object` returns and its failures are NOT normalised to `S3ClientError`
  by the wrapper; the payload therefore carries `body : Except String ...`
  and a failed read raises a non-`S3ClientError` ("stray") exception.
* Python exception flow is modelled by the monad
  `CatM α = CatState → Except Exn α × CatState`: state mutations made before
  a raise persist, `except S3ClientError` corresponds to `catchS3`.
* Wall-clock values (durations, timestamps) and the purely diagnostic
  `details` dictionaries / log lines of results are outside the model;
  `CheckResult` keeps the fields the framework interprets (`name`,
  `success`, `message`).  The millisecond timestamp used by
  `generate_unique_name` is modelled by a per-instance counter `clock`.
* Success rates (Python floats) are modelled in exact rational arithmetic;
  on every value reachable in the embedded checks the float comparison and
  the rational comparison agree.
* Python's `sorted` is a stable sort; it is modelled by
  `List.insertionSort`, which is extensionally the same function on any key.
* Byte strings are modelled as `List Nat`; `str.encode('utf-8')` is modelled
  characterwise (`Char.toNat`), which agrees with UTF-8 on the ASCII test
  content used by the checks.
* A trace of `events` (gateway calls with their outcome, and cleanup-registry
  registrations) is threaded through the state so that ordering properties
  of the real side effects can be stated.
-/

namespace S3Spec

/-- Error type raised by the `S3Client` wrapper (`s3_client.py`,
`class S3ClientError`): message plus optional error code and HTTP status. -/
structure S3ClientError where
  message : String := ""
  error_code : Option String := none
  status_code : Option Int := none
  deriving Repr, DecidableEq

/-- A Python exception as seen by the check code: either the wrapper's
`S3ClientError` or any other ("stray") exception. -/
inductive Exn where
  | s3 (e : S3ClientError)
  | stray (msg : String)
  deriving Repr, DecidableEq

/-- The string Python renders for the exception (`str(e)`). -/
def Exn.toMessage : Exn → String
  | .s3 e => e.message
  | .stray m => m

/-- One probe outcome (`base_check.py`, `class CheckResult`); the
diagnostic-only `details`/`duration`/`timestamp` fields are not modelled. -/
structure CheckResult where
  name : String
  success : Bool
  message : String := ""
  deriving Repr, DecidableEq

/-- An entry of the cleanup registry (`base_check.py`,
`add_cleanup_item`): the dict `{'type', 'identifier', **kwargs}` with the
kwargs that the cleanup pass reads (`bucket`, `version_id`, `upload_id`). -/
structure CleanupItem where
  itemType : String
  identifier : String
  bucket : Option String := none
  version_id : Option String := none
  upload_id : Option String := none
  deriving Repr, DecidableEq

/-- Summary of a gateway call, as recorded in the event trace. -/
inductive S3Call where
  | createBucket (bucket : String)
  | deleteBucket (bucket : String)
  | headBucket (bucket : String)
  | listBuckets
  | putBucketVersioning (bucket status : String)
  | getBucketVersioning (bucket : String)
  | putBucketTagging (bucket : String)
  | getBucketTagging (bucket : String)
  | deleteBucketTagging (bucket : String)
  | putObject (bucket key : String)
  | getObject (bucket key : String)
  | deleteObject (bucket : Option String) (key : String) (versionId : Option String)
  | headObject (bucket key : String)
  | copyObject (bucket key srcBucket srcKey : String)
  | listObjectsV2 (bucket : String) (pfx : Option String)
  | listObjects (bucket : String) (pfx : Option String)
  | putObjectTagging (bucket key : String)
  | getObjectTagging (bucket key : String)
  | abortMultipartUpload (bucket key : String) (uploadId : Option String)
  deriving Repr, DecidableEq

/-- One observable step of a category's execution: a gateway call together
with whether it succeeded, or a registration into the cleanup registry. -/
inductive Event where
  | call (c : S3Call) (ok : Bool)
  | registered (item : CleanupItem)
  deriving Repr, DecidableEq

/- Gateway response payloads: one structure per operation, with exactly the
fields the embedded checks read. -/

/-- Response of `create_bucket`: the code reads
`response.get('ResponseMetadata', {}).get('HTTPStatusCode')`. -/
structure CreateBucketResp where
  httpStatusCode : Option Int := none
  deriving Repr, DecidableEq

/-- Response of `delete_bucket` / `delete_object` (HTTP status only). -/
structure DeleteResp where
  httpStatusCode : Option Int := none
  deriving Repr, DecidableEq

/-- Response of `head_bucket` (HTTP status only). -/
structure HeadBucketResp where
  httpStatusCode : Option Int := none
  deriving Repr, DecidableEq

/-- Response of `put_object`: the code reads `'ETag' in response`. -/
structure PutObjectResp where
  eTag : Option String := none
  deriving Repr, DecidableEq

instance {α β : Type} [DecidableEq α] [DecidableEq β] : DecidableEq (Except α β) := fun x y =>
  match x, y with
  | .ok a, .ok b =>
    if h : a = b then .isTrue (by rw [h]) else .isFalse (by intro c; cases c; exact h rfl)
  | .error a, .error b =>
    if h : a = b then .isTrue (by rw [h]) else .isFalse (by intro c; cases c; exact h rfl)
  | .ok _, .error _ => .isFalse (by intro c; cases c)
  | .error _, .ok _ => .isFalse (by intro c; cases c)

/-- Response of `get_object`.  `body` models `response['Body'].read()`:
reading the stream happens after the call returns and can fail with a
non-`S3ClientError` exception (the `.error` case). -/
structure GetObjectResp where
  body : Except String (List Nat)
  contentType : Option String := none
  deriving Repr, DecidableEq

/-- Response of `head_object`: optional `ContentLength`/`ETag`, the
string-valued standard headers as an association list (`ContentType`,
`ContentEncoding`, ...), and the user `Metadata` mapping. -/
structure HeadObjectResp where
  contentLength : Option Int := none
  eTag : Option String := none
  headers : List (String × String) := []
  metadata : List (String × String) := []
  deriving Repr, DecidableEq

/-- Inner `CopyObjectResult` of a `copy_object` response. -/
structure CopyResult where
  eTag : Option String := none
  deriving Repr, DecidableEq

/-- Response of `copy_object`: the code reads
`'CopyObjectResult' in copy_response` and its `'ETag'`. -/
structure CopyObjectResp where
  copyObjectResult : Option CopyResult := none
  deriving Repr, DecidableEq

/-- One entry of a `list_objects`/`list_objects_v2` `Contents` array. -/
structure ObjEntry where
  key : String
  deriving Repr, DecidableEq

/-- Response of `list_objects`/`list_objects_v2`: the code reads
`'Contents' in response` and each entry's `'Key'`. -/
structure ListObjectsResp where
  contents : Option (List ObjEntry) := none
  deriving Repr, DecidableEq

/-- One entry of a `list_buckets` `Buckets` array; `Name`/`CreationDate`
may be absent (the structure check probes for exactly that). -/
structure BucketEntry where
  name : Option String := none
  creationDate : Option String := none
  deriving Repr, DecidableEq

/-- Response of `list_buckets`. -/
structure ListBucketsResp where
  buckets : Option (List BucketEntry) := none
  deriving Repr, DecidableEq

/-- Response of `get_bucket_versioning`: optional `Status` field. -/
structure VersioningResp where
  status : Option String := none
  deriving Repr, DecidableEq

/-- A tag dict `{'Key': ..., 'Value': ...}`. -/
structure Tag where
  key : String
  value : String
  deriving Repr, DecidableEq

/-- Response of `get_bucket_tagging` / `get_object_tagging`. -/
structure TaggingResp where
  tagSet : Option (List Tag) := none
  deriving Repr, DecidableEq

/-- Arguments of `put_object` that the embedded checks pass:
`Bucket`, `Key`, `Body`, optional `ContentType`, the user `Metadata`
mapping, and the standard-header kwargs of the metadata checks. -/
structure PutArgs where
  bucket : String
  key : String
  body : List Nat
  contentType : Option String := none
  metadata : List (String × String) := []
  extraHeaders : List (String × String) := []
  deriving Repr, DecidableEq

/-- Arguments of `copy_object` that the embedded checks pass. -/
structure CopyArgs where
  bucket : String
  key : String
  srcBucket : String
  srcKey : String
  metadata : Option (List (String × String)) := none
  metadataDirective : Option String := none
  deriving Repr, DecidableEq

/-- The storage gateway (`framework/s3_client.py` as consumed by the
checks): every operation returns a typed payload or an `S3ClientError`.
A value of this type fixes the remote side's behaviour for a run. -/
structure Gateway where
  create_bucket : String → Except S3ClientError CreateBucketResp
  delete_bucket : String → Except S3ClientError DeleteResp
  head_bucket : String → Except S3ClientError HeadBucketResp
  list_buckets : Except S3ClientError ListBucketsResp
  put_bucket_versioning : String → String → Except S3ClientError Unit
  get_bucket_versioning : String → Except S3ClientError VersioningResp
  put_bucket_tagging : String → List Tag → Except S3ClientError Unit
  get_bucket_tagging : String → Except S3ClientError TaggingResp
  delete_bucket_tagging : String → Except S3ClientError Unit
  put_object : PutArgs → Except S3ClientError PutObjectResp
  get_object : String → String → Except S3ClientError GetObjectResp
  delete_object : Option String → String → Option String → Except S3ClientError DeleteResp
  head_object : String → String → Except S3ClientError HeadObjectResp
  copy_object : CopyArgs → Except S3ClientError CopyObjectResp
  list_objects_v2 : String → Option String → Except S3ClientError ListObjectsResp
  list_objects : String → Option String → Except S3ClientError ListObjectsResp
  put_object_tagging : String → String → List Tag → Except S3ClientError Unit
  get_object_tagging : String → String → Except S3ClientError TaggingResp
  abort_multipart_upload : String → String → Option String → Except S3ClientError Unit

/-- Configuration subsection `[test_data]` (INI-sourced, so every field may
be absent; the code supplies defaults at each read site). -/
structure TestDataConfig where
  small_file_size : Option Nat := none
  medium_file_size : Option Nat := none
  test_file_content : Option String := none
  cleanup_enabled : Option Bool := none
  deriving Repr, DecidableEq

/-- The configuration dictionary as the embedded checks read it. -/
structure Config where
  test_data : Option TestDataConfig := none
  deriving Repr, DecidableEq

/-- The `[test_data]` section with the code's `config.get('test_data', {})`
defaulting applied. -/
def Config.td (cfg : Config) : TestDataConfig := cfg.test_data.getD {}

/-- Mutable state of one check-category instance (`BaseCheck.__init__`):
the result ledger, the cleanup registry, the scoped `test_bucket`
attribute, plus the model-level event trace and name clock. -/
structure CatState where
  check_name : String := ""
  results : List CheckResult := []
  cleanup_items : List CleanupItem := []
  events : List Event := []
  test_bucket : String := ""
  clock : Nat := 0
  deriving Repr, DecidableEq

/-- Append a gateway-call event to the trace. -/
def CatState.logCall (s : CatState) (c : S3Call) (ok : Bool) : CatState :=
  { s with events := s.events ++ [.call c ok] }

/-- The category-execution monad: explicit state threading with Python
exception semantics (state mutated before a raise persists). -/
def CatM (α : Type) : Type := CatState → Except Exn α × CatState

/-- Return a value, leaving the state unchanged. -/
def CatM.pure {α : Type} (a : α) : CatM α := fun s => (.ok a, s)

/-- Sequence two computations; an exception in the first skips the
second (its state mutations persist). -/
def CatM.bind {α β : Type} (x : CatM α) (f : α → CatM β) : CatM β := fun s =>
  match x s with
  | (.ok a, s1) => f a s1
  | (.error e, s1) => (.error e, s1)

instance : Monad CatM where
  pure := CatM.pure
  bind := CatM.bind

/-- Raise an exception. -/
def throwExn {α : Type} (e : Exn) : CatM α := fun s => (.error e, s)

/-- Read the instance state. -/
def getS : CatM CatState := fun s => (.ok s, s)

/-- Update the instance state. -/
def modifyS (f : CatState → CatState) : CatM Unit := fun s => (.ok (), f s)

/-- A Python `try: ... except S3ClientError as e: ...` block: catches only
the wrapper's error type; any other exception keeps propagating. -/
def catchS3 {α : Type} (m : CatM α) (h : S3ClientError → CatM α) : CatM α := fun s =>
  match m s with
  | (.ok a, s1) => (.ok a, s1)
  | (.error (.s3 e), s1) => h e s1
  | (.error (.stray msg), s1) => (.error (.stray msg), s1)

/-- Perform one gateway operation: record the call and its outcome in the
event trace; a failure raises the `S3ClientError` into the monad. -/
def gwCall {α : Type} (c : S3Call) (r : Except S3ClientError α) : CatM α := fun s =>
  match r with
  | .ok a => (.ok a, s.logCall c true)
  | .error e => (.error (.s3 e), s.logCall c false)

/-- Read a `get_object` body (`response['Body'].read()`): a stream failure
raises a non-`S3ClientError` exception. -/
def readBody (r : GetObjectResp) : CatM (List Nat) :=
  match r.body with
  | .ok d => pure d
  | .error msg => throwExn (.stray msg)

/-- `BaseCheck.add_result`: build the `CheckResult` and append it to the
ledger (the log lines are not modelled). -/
def add_result (name : String) (success : Bool) (message : String) : CatM CheckResult :=
  fun s =>
    let r : CheckResult := { name := name, success := success, message := message }
    (.ok r, { s with results := s.results ++ [r] })

/-- `BaseCheck.add_cleanup_item`: append the item to the registry (and to
the event trace). -/
def add_cleanup_item (item : CleanupItem) : CatM Unit := fun s =>
  (.ok (), { s with cleanup_items := s.cleanup_items ++ [item],
                    events := s.events ++ [.registered item] })

/-- `BaseCheck.generate_unique_name`: `{prefix}-{millisecond timestamp}`
(or `s3check-{ts}` for an empty prefix); the clock models `time.time()`. -/
def generate_unique_name (pfx : String) : CatM String := fun s =>
  let ts := toString s.clock
  let nm := if pfx ≠ "" then pfx ++ "-" ++ ts else "s3check-" ++ ts
  (.ok nm, { s with clock := s.clock + 1 })

/-- Sort key of `BaseCheck.cleanup`:
`{'object': 0, 'multipart_upload': 1, 'bucket': 2}.get(type, 3)`. -/
def cleanupPriority (t : String) : Nat :=
  if t = "object" then 0
  else if t = "multipart_upload" then 1
  else if t = "bucket" then 2
  else 3

/-- The comparison `sorted` uses on cleanup items. -/
def cleanupLE (a b : CleanupItem) : Prop :=
  cleanupPriority a.itemType ≤ cleanupPriority b.itemType

instance : DecidableRel cleanupLE := fun a b =>
  inferInstanceAs (Decidable (cleanupPriority a.itemType ≤ cleanupPriority b.itemType))

/-- The order in which `BaseCheck.cleanup` processes the registry:
`sorted(self.cleanup_items, key=...)`.  Python's `sorted` is a stable
sort, modelled by the (stable) insertion sort. -/
def cleanupOrder (items : List CleanupItem) : List CleanupItem :=
  List.insertionSort cleanupLE items

/-- The inner loop of `BaseCheck._cleanup_bucket`: delete each listed
object; the first failure aborts the loop (the surrounding `try` swallows
it). -/
def deleteObjectsLoop (gw : Gateway) (bucket : String) :
    List ObjEntry → CatState → CatState
  | [], s => s
  | obj :: rest, s =>
    match gw.delete_object (some bucket) obj.key none with
    | .ok _ => deleteObjectsLoop gw bucket rest
        (s.logCall (.deleteObject (some bucket) obj.key none) true)
    | .error _ => s.logCall (.deleteObject (some bucket) obj.key none) false

/-- `BaseCheck._cleanup_bucket`: best-effort listing + deletion of the
remaining objects (failures swallowed), then `delete_bucket`, whose failure
is returned to the per-item handler of `cleanup`. -/
def cleanup_bucket (gw : Gateway) (item : CleanupItem) (s : CatState) :
    Option S3ClientError × CatState :=
  let bucket := item.identifier
  let s1 :=
    match gw.list_objects_v2 bucket none with
    | .ok resp =>
      let s' := s.logCall (.listObjectsV2 bucket none) true
      match resp.contents with
      | some objs => deleteObjectsLoop gw bucket objs s'
      | none => s'
    | .error _ => s.logCall (.listObjectsV2 bucket none) false
  match gw.delete_bucket bucket with
  | .ok _ => (none, s1.logCall (.deleteBucket bucket) true)
  | .error e => (some e, s1.logCall (.deleteBucket bucket) false)

/-- `BaseCheck._cleanup_object`: one `delete_object` with the stored
bucket/key and optional version id. -/
def cleanup_object (gw : Gateway) (item : CleanupItem) (s : CatState) :
    Option S3ClientError × CatState :=
  match gw.delete_object item.bucket item.identifier item.version_id with
  | .ok _ => (none, s.logCall (.deleteObject item.bucket item.identifier item.version_id) true)
  | .error e => (some e, s.logCall (.deleteObject item.bucket item.identifier item.version_id) false)

/-- `BaseCheck._cleanup_multipart_upload`: one `abort_multipart_upload`. -/
def cleanup_multipart_upload (gw : Gateway) (item : CleanupItem) (s : CatState) :
    Option S3ClientError × CatState :=
  match gw.abort_multipart_upload (item.bucket.getD "") item.identifier item.upload_id with
  | .ok _ => (none, s.logCall (.abortMultipartUpload (item.bucket.getD "") item.identifier item.upload_id) true)
  | .error e => (some e, s.logCall (.abortMultipartUpload (item.bucket.getD "") item.identifier item.upload_id) false)

/-- One iteration of the `for item in sorted_items` loop of
`BaseCheck.cleanup`: dispatch on the item type; any teardown exception is
caught and rendered as a cleanup-error message; an unknown type only logs
a warning. -/
def cleanupItemStep (gw : Gateway) (item : CleanupItem) (s : CatState) :
    Option String × CatState :=
  let render : Option S3ClientError → Option String := fun e? =>
    e?.map fun e =>
      "Failed to cleanup " ++ item.itemType ++ " '" ++ item.identifier ++ "': " ++ e.message
  if item.itemType = "bucket" then
    let (e?, s') := cleanup_bucket gw item s
    (render e?, s')
  else if item.itemType = "object" then
    let (e?, s') := cleanup_object gw item s
    (render e?, s')
  else if item.itemType = "multipart_upload" then
    let (e?, s') := cleanup_multipart_upload gw item s
    (render e?, s')
  else
    (none, s)

/-- The `for` loop of `BaseCheck.cleanup` over the sorted items,
collecting the caught per-item errors. -/
def cleanupProcess (gw : Gateway) : List CleanupItem → CatState → List String × CatState
  | [], s => ([], s)
  | item :: rest, s =>
    let (err?, s1) := cleanupItemStep gw item s
    let (errs, s2) := cleanupProcess gw rest s1
    (match err? with
     | some m => m :: errs
     | none => errs, s2)

/-- `BaseCheck.cleanup`: process the registry in priority order
(objects, then multipart uploads, then buckets), catching and collecting
each item's teardown failure, then clear the registry unconditionally.
Returns the collected cleanup-error messages (Python only logs them). -/
def cleanupRun (gw : Gateway) (s : CatState) : List String × CatState :=
  let (errs, s1) := cleanupProcess gw (cleanupOrder s.cleanup_items) s
  (errs, { s1 with cleanup_items := [] })

/-- Summary of one category (`BaseCheck.get_summary` plus the `error` key
the runner adds for a crashed category); `duration` is not modelled. -/
structure CategorySummary where
  check_category : String
  total_checks : Nat
  passed : Nat
  failed : Nat
  success_rate : ℚ
  results : List CheckResult
  error : Option String := none
  deriving Repr, DecidableEq

/-- `BaseCheck.get_summary`: totals over the ledger;
`success_rate = passed / total * 100 if total > 0 else 0`. -/
def get_summary (s : CatState) : CategorySummary :=
  let total := s.results.length
  let passed := (s.results.filter (·.success)).length
  { check_category := s.check_name
    total_checks := total
    passed := passed
    failed := total - passed
    success_rate := if total > 0 then (passed : ℚ) / (total : ℚ) * 100 else 0
    results := s.results }

/-- The zero-result failed-category record the runner stores when a
category's `run_checks()` raises (check_runner.py lines 220-229). -/
def errorCategorySummary (name : String) (e : Exn) : CategorySummary :=
  { check_category := name, total_checks := 0, passed := 0, failed := 0,
    success_rate := 0, results := [], error := some e.toMessage }

/-- A Python dict built by comprehension from a key/value list (later
entries overwrite earlier ones), read through `.get`. -/
def pyDictGet (l : List (String × String)) (k : String) : Option String :=
  l.reverse.lookup k

/-- A check category as the runner drives it: the runner's registry key
(`available_checks`), the class-derived `check_name`
(`ClassName.replace('Check','').lower()`), and its `run_checks` entry
point (closed over the s3 client and config the runner passes at
instantiation). -/
structure Category where
  name : String
  check_name : String
  run : Gateway → Config → CatM (List CheckResult)

/-- The freshly constructed instance state of a category
(`check_class(self.s3_client, self.config, scope_logger)`). -/
def catInit (cat : Category) : CatState := { check_name := cat.check_name }

namespace CheckRunner

/-- The per-category body of the `for check_name in enabled_checks` loop of
`CheckRunner.run_checks` (check_runner.py lines 184-229): instantiate the
category fresh, call its `run_checks()`; on normal return collect
`get_summary()` and then invoke `cleanup()` (unless `cleanup_enabled` is
off); if `run_checks()` raised, record a zero-result failed category with
the error message — cleanup is not reached in that branch.  Returns the
recorded summary and the final instance state. -/
def runCategory (gw : Gateway) (cfg : Config) (cat : Category) :
    CategorySummary × CatState :=
  match cat.run gw cfg (catInit cat) with
  | (.ok _, s1) =>
    if (cfg.td.cleanup_enabled).getD true then (get_summary s1, (cleanupRun gw s1).2)
    else (get_summary s1, s1)
  | (.error e, s1) => (errorCategorySummary cat.name e, s1)

/-- The run-level summary dict built at the end of `CheckRunner.run_checks`
(`overall_duration` is not modelled). -/
structure RunSummary where
  total_categories : Nat
  total_checks : Nat
  total_passed : Nat
  total_failed : Nat
  overall_success_rate : ℚ
  executed_checks : List String
  results : List (String × CategorySummary)
  deriving Repr, DecidableEq

/-- The aggregation step of `CheckRunner.run_checks` (lines 233-247):
sums across categories and
`overall_success_rate = passed / total * 100 if total > 0 else 0`. -/
def aggregate (rs : List (String × CategorySummary)) : RunSummary :=
  let total_checks := (rs.map (fun p => p.2.total_checks)).sum
  let total_passed := (rs.map (fun p => p.2.passed)).sum
  let total_failed := (rs.map (fun p => p.2.failed)).sum
  { total_categories := rs.length
    total_checks := total_checks
    total_passed := total_passed
    total_failed := total_failed
    overall_success_rate :=
      if total_checks > 0 then (total_passed : ℚ) / (total_checks : ℚ) * 100 else 0
    executed_checks := rs.map (·.1)
    results := rs }

/-- `CheckRunner.run_checks` restricted to its core: execute the selected,
loaded categories in sequence (each on a fresh instance) and aggregate
their recorded summaries into the run summary.  The scope/enabled-flag
selection that computes the category list is configuration glue and is
taken as the input list. -/
def run_checks (gw : Gateway) (cfg : Config) (cats : List Category) : RunSummary :=
  aggregate (cats.map fun c => (c.name, (runCategory gw cfg c).1))

end CheckRunner

/-- Characterwise model of `str.encode('utf-8')` (exact on the ASCII
content the checks use). -/
def strBytes (s : String) : List Nat := s.toList.map Char.toNat

/-- The `while len(data) < size` chunk-appending loop shared by the
categories' `_generate_test_data`, with the running length tracked
incrementally (`len` always equals the total length of the chunks emitted
so far, so the guard is the same as Python's `len(data) < size`); every
chunk is nonempty, so `size + 1` fuel is never exhausted. -/
def genChunks (content : String) (size : Nat) : Nat → Nat → Nat → List (List Nat)
  | 0, _, _ => []
  | fuel + 1, chunkNum, len =>
    if len < size then
      strBytes (content ++ " - chunk " ++ toString chunkNum ++ "\n") ::
        genChunks content size fuel (chunkNum + 1)
          (len + (strBytes (content ++ " - chunk " ++ toString chunkNum ++ "\n")).length)
    else []

/-- `_generate_test_data(size, content)` as defined identically in
`check_objects.py` and `check_metadata.py` up to the default content
string: repeat the content (with chunk numbers) to the requested size. -/
def generate_test_data (cfg : Config) (defaultContent : String) (size : Nat)
    (content? : Option String) : List Nat :=
  let content := content?.getD ((cfg.td.test_file_content).getD defaultContent)
  let contentBytes := strBytes content
  if contentBytes.length ≥ size then contentBytes.take size
  else ((genChunks content size (size + 1) 0 0).flatten).take size

namespace ObjectChecks

/-- `ObjectChecks._generate_test_data` (default content
`'S3 compatibility test data'`). -/
def gen_test_data (cfg : Config) (size : Nat) (content? : Option String) : List Nat :=
  generate_test_data cfg "S3 compatibility test data" size content?

/-- `ObjectChecks._check_object_upload`: small upload, medium upload, and
upload with user metadata; each `try` block appends exactly one result. -/
def check_object_upload (gw : Gateway) (cfg : Config) : CatM Unit := do
  let tb := (← getS).test_bucket
  let small_size := (cfg.td.small_file_size).getD 1024
  let small_data := gen_test_data cfg small_size none
  let small_key ← generate_unique_name "small-object"
  catchS3
    (do
      let response ← gwCall (.putObject tb small_key)
        (gw.put_object { bucket := tb, key := small_key, body := small_data })
      add_cleanup_item { itemType := "object", identifier := small_key, bucket := some tb }
      if response.eTag.isSome then
        let _ ← add_result "object_upload_small" true
          ("Successfully uploaded small object (" ++ toString small_size ++ " bytes)")
        pure ()
      else
        let _ ← add_result "object_upload_small" false "Upload response missing ETag"
        pure ())
    (fun e => do
      let _ ← add_result "object_upload_small" false
        ("Failed to upload small object: " ++ e.message)
      pure ())
  let medium_size := (cfg.td.medium_file_size).getD 1048576
  let medium_data := gen_test_data cfg medium_size none
  let medium_key ← generate_unique_name "medium-object"
  catchS3
    (do
      let response ← gwCall (.putObject tb medium_key)
        (gw.put_object { bucket := tb, key := medium_key, body := medium_data,
                         contentType := some "application/octet-stream" })
      add_cleanup_item { itemType := "object", identifier := medium_key, bucket := some tb }
      if response.eTag.isSome then
        let _ ← add_result "object_upload_medium" true
          ("Successfully uploaded medium object (" ++ toString medium_size ++ " bytes)")
        pure ()
      else
        let _ ← add_result "object_upload_medium" false "Medium upload response missing ETag"
        pure ())
    (fun e => do
      let _ ← add_result "object_upload_medium" false
        ("Failed to upload medium object: " ++ e.message)
      pure ())
  let metadata_key ← generate_unique_name "metadata-object"
  let metadata : List (String × String) :=
    [("author", "S3CompatibilityChecker"), ("test-type", "object-upload"),
     ("custom-field", "test-value")]
  catchS3
    (do
      let response ← gwCall (.putObject tb metadata_key)
        (gw.put_object { bucket := tb, key := metadata_key, body := small_data,
                         metadata := metadata, contentType := some "text/plain" })
      add_cleanup_item { itemType := "object", identifier := metadata_key, bucket := some tb }
      if response.eTag.isSome then
        let _ ← add_result "object_upload_with_metadata" true
          "Successfully uploaded object with metadata"
        pure ()
      else
        let _ ← add_result "object_upload_with_metadata" false
          "Metadata upload response missing ETag"
        pure ())
    (fun e => do
      let _ ← add_result "object_upload_with_metadata" false
        ("Failed to upload object with metadata: " ++ e.message)
      pure ())

/-- First `try` block of `ObjectChecks._check_object_download` (split out
for addressability): upload a 2 KB object, download it, and byte-compare. -/
def check_object_download_roundtrip (gw : Gateway) (cfg : Config) (test_key : String) :
    CatM Unit := do
  let tb := (← getS).test_bucket
  let test_data := gen_test_data cfg 2048 none
  catchS3
    (do
      let _ ← gwCall (.putObject tb test_key)
        (gw.put_object { bucket := tb, key := test_key, body := test_data })
      add_cleanup_item { itemType := "object", identifier := test_key, bucket := some tb }
      let response ← gwCall (.getObject tb test_key) (gw.get_object tb test_key)
      let downloaded ← readBody response
      if downloaded = test_data then
        let _ ← add_result "object_download" true
          "Successfully downloaded and verified object"
        pure ()
      else
        let _ ← add_result "object_download" false
          "Downloaded data doesn't match uploaded data"
        pure ())
    (fun e => do
      let _ ← add_result "object_download" false ("Failed to download object: " ++ e.message)
      pure ())

/-- Second `try` block of `ObjectChecks._check_object_download` (split out
for addressability): download a nonexistent key; pass iff the gateway
fails with HTTP status 404. -/
def check_object_download_missing (gw : Gateway) (nonexistent_key : String) : CatM Unit := do
  let tb := (← getS).test_bucket
  catchS3
    (do
      let _ ← gwCall (.getObject tb nonexistent_key) (gw.get_object tb nonexistent_key)
      let _ ← add_result "object_download_nonexistent" false
        "Download succeeded for non-existent object"
      pure ())
    (fun e => do
      if e.status_code = some 404 then
        let _ ← add_result "object_download_nonexistent" true
          "Correctly returned 404 for non-existent object"
        pure ()
      else
        let _ ← add_result "object_download_nonexistent" false
          ("Unexpected error code for non-existent object: " ++ toString e.status_code)
        pure ())

/-- `ObjectChecks._check_object_download`: upload a 2 KB object, download
and byte-compare it; then download a nonexistent key and expect a 404. -/
def check_object_download (gw : Gateway) (cfg : Config) : CatM Unit := do
  let test_key ← generate_unique_name "download-test-object"
  check_object_download_roundtrip gw cfg test_key
  let nonexistent_key ← generate_unique_name "nonexistent-object"
  check_object_download_missing gw nonexistent_key

/-- `ObjectChecks._check_object_head_operation`: upload with metadata,
head the object, and require at least 3 of the 4 field checks. -/
def check_object_head_operation (gw : Gateway) (cfg : Config) : CatM Unit := do
  let tb := (← getS).test_bucket
  let test_key ← generate_unique_name "head-test-object"
  let test_data := gen_test_data cfg 1024 none
  catchS3
    (do
      let put_response ← gwCall (.putObject tb test_key)
        (gw.put_object { bucket := tb, key := test_key, body := test_data,
                         metadata := [("test-field", "head-operation-test")],
                         contentType := some "application/json" })
      add_cleanup_item { itemType := "object", identifier := test_key, bucket := some tb }
      let response ← gwCall (.headObject tb test_key) (gw.head_object tb test_key)
      let checks : List String :=
        (if response.contentLength = some (test_data.length : Int)
         then ["content_length_correct"] else []) ++
        (if response.eTag.isSome && response.eTag == put_response.eTag
         then ["etag_matches"] else []) ++
        (if (response.headers.lookup "ContentType").isSome
         then ["content_type_present"] else []) ++
        (if response.metadata.lookup "test-field" == some "head-operation-test"
         then ["metadata_preserved"] else [])
      if checks.length ≥ 3 then
        let _ ← add_result "object_head_operation" true
          ("Head operation returned correct metadata (" ++ toString checks.length ++
            "/4 checks passed)")
        pure ()
      else
        let _ ← add_result "object_head_operation" false
          ("Head operation failed validation (" ++ toString checks.length ++
            "/4 checks passed)")
        pure ())
    (fun e => do
      let _ ← add_result "object_head_operation" false ("Failed head operation: " ++ e.message)
      pure ())

/-- `ObjectChecks._check_object_copy`: upload a source object, copy it,
and verify the copied content matches. -/
def check_object_copy (gw : Gateway) (cfg : Config) : CatM Unit := do
  let tb := (← getS).test_bucket
  let source_key ← generate_unique_name "copy-source-object"
  let dest_key ← generate_unique_name "copy-dest-object"
  let test_data := gen_test_data cfg 1024 none
  catchS3
    (do
      let _ ← gwCall (.putObject tb source_key)
        (gw.put_object { bucket := tb, key := source_key, body := test_data,
                         contentType := some "text/plain" })
      add_cleanup_item { itemType := "object", identifier := source_key, bucket := some tb }
      let copy_response ← gwCall (.copyObject tb dest_key tb source_key)
        (gw.copy_object { bucket := tb, key := dest_key, srcBucket := tb, srcKey := source_key })
      add_cleanup_item { itemType := "object", identifier := dest_key, bucket := some tb }
      match copy_response.copyObjectResult with
      | some cr =>
        if cr.eTag.isSome then do
          let get_response ← gwCall (.getObject tb dest_key) (gw.get_object tb dest_key)
          let copied ← readBody get_response
          if copied = test_data then
            let _ ← add_result "object_copy" true
              "Successfully copied object and verified content"
            pure ()
          else
            let _ ← add_result "object_copy" false "Copied object content doesn't match source"
            pure ()
        else do
          let _ ← add_result "object_copy" false "Copy response missing expected fields"
          pure ()
      | none => do
        let _ ← add_result "object_copy" false "Copy response missing expected fields"
        pure ())
    (fun e => do
      let _ ← add_result "object_copy" false ("Failed to copy object: " ++ e.message)
      pure ())

/-- `ObjectChecks._check_object_listing`: upload three prefixed objects,
then list with both the v2 and the v1 API and require all three keys. -/
def check_object_listing (gw : Gateway) (cfg : Config) : CatM Unit := do
  let tb := (← getS).test_bucket
  let test_pfx ← generate_unique_name "list-test"
  let key0 := test_pfx ++ "-object-0"
  let key1 := test_pfx ++ "-object-1"
  let key2 := test_pfx ++ "-object-2"
  let object_keys := [key0, key1, key2]
  catchS3
    (do
      let _ ← gwCall (.putObject tb key0)
        (gw.put_object { bucket := tb, key := key0,
                         body := gen_test_data cfg 512 (some "Test object 0") })
      add_cleanup_item { itemType := "object", identifier := key0, bucket := some tb }
      let _ ← gwCall (.putObject tb key1)
        (gw.put_object { bucket := tb, key := key1,
                         body := gen_test_data cfg 512 (some "Test object 1") })
      add_cleanup_item { itemType := "object", identifier := key1, bucket := some tb }
      let _ ← gwCall (.putObject tb key2)
        (gw.put_object { bucket := tb, key := key2,
                         body := gen_test_data cfg 512 (some "Test object 2") })
      add_cleanup_item { itemType := "object", identifier := key2, bucket := some tb }
      let response ← gwCall (.listObjectsV2 tb (some test_pfx))
        (gw.list_objects_v2 tb (some test_pfx))
      (match response.contents with
       | some contents => do
         let listed_keys := contents.map (·.key)
         let found_keys := object_keys.filter (fun k => listed_keys.contains k)
         if found_keys.length = object_keys.length then
           let _ ← add_result "object_listing_v2" true
             ("Successfully listed all " ++ toString object_keys.length ++ " objects")
           pure ()
         else
           let _ ← add_result "object_listing_v2" false
             ("Listed " ++ toString found_keys.length ++ " objects, expected " ++
               toString object_keys.length)
           pure ()
       | none => do
         let _ ← add_result "object_listing_v2" false "List response missing 'Contents' field"
         pure ())
      let response_v1 ← gwCall (.listObjects tb (some test_pfx))
        (gw.list_objects tb (some test_pfx))
      (match response_v1.contents with
       | some contents => do
         let listed_keys_v1 := contents.map (·.key)
         let found_keys_v1 := object_keys.filter (fun k => listed_keys_v1.contains k)
         if found_keys_v1.length = object_keys.length then
           let _ ← add_result "object_listing_v1" true
             "Successfully listed all objects with v1 API"
           pure ()
         else
           let _ ← add_result "object_listing_v1" false
             ("v1 API listed " ++ toString found_keys_v1.length ++ " objects, expected " ++
               toString object_keys.length)
           pure ()
       | none => do
         let _ ← add_result "object_listing_v1" false "v1 List response missing 'Contents' field"
         pure ()))
    (fun e => do
      let _ ← add_result "object_listing" false
        ("Failed object listing operations: " ++ e.message)
      pure ())

/-- `ObjectChecks._check_object_metadata`: upload an object, put two tags,
read them back, and require both key/value pairs. -/
def check_object_metadata (gw : Gateway) (cfg : Config) : CatM Unit := do
  let tb := (← getS).test_bucket
  let test_key ← generate_unique_name "metadata-test-object"
  let test_data := gen_test_data cfg 2048 none
  catchS3
    (do
      let _ ← gwCall (.putObject tb test_key)
        (gw.put_object { bucket := tb, key := test_key, body := test_data })
      add_cleanup_item { itemType := "object", identifier := test_key, bucket := some tb }
      let _ ← gwCall (.putObjectTagging tb test_key)
        (gw.put_object_tagging tb test_key
          [{ key := "Environment", value := "Test" },
           { key := "ObjectType", value := "MetadataTest" }])
      let tag_response ← gwCall (.getObjectTagging tb test_key)
        (gw.get_object_tagging tb test_key)
      let returned_tags := tag_response.tagSet.getD []
      if returned_tags.length = 2 then
        let tag_dict := pyDictGet (returned_tags.map fun t => (t.key, t.value))
        if tag_dict "Environment" == some "Test" && tag_dict "ObjectType" == some "MetadataTest" then
          let _ ← add_result "object_tagging" true
            "Successfully set and retrieved object tags"
          pure ()
        else
          let _ ← add_result "object_tagging" false "Object tag values don't match expected"
          pure ()
      else
        let _ ← add_result "object_tagging" false
          ("Expected 2 tags, got " ++ toString returned_tags.length)
        pure ())
    (fun e => do
      let _ ← add_result "object_tagging" false
        ("Failed object tagging operations: " ++ e.message)
      pure ())

/-- `ObjectChecks._check_object_deletion`: delete an uploaded object and
verify via `head_object` (expecting 404); then delete a nonexistent key
(idempotent delete: success or 404 both pass). -/
def check_object_deletion (gw : Gateway) (cfg : Config) : CatM Unit := do
  let tb := (← getS).test_bucket
  let test_key ← generate_unique_name "delete-test-object"
  let test_data := gen_test_data cfg 1024 none
  catchS3
    (do
      let _ ← gwCall (.putObject tb test_key)
        (gw.put_object { bucket := tb, key := test_key, body := test_data })
      let _ ← gwCall (.deleteObject (some tb) test_key none)
        (gw.delete_object (some tb) test_key none)
      catchS3
        (do
          let _ ← gwCall (.headObject tb test_key) (gw.head_object tb test_key)
          let _ ← add_result "object_deletion" false "Object still exists after deletion"
          pure ())
        (fun head_error => do
          if head_error.status_code = some 404 then
            let _ ← add_result "object_deletion" true "Successfully deleted object"
            pure ()
          else
            let _ ← add_result "object_deletion" false
              ("Unexpected error verifying deletion: " ++ head_error.message)
            pure ()))
    (fun e => do
      let _ ← add_result "object_deletion" false ("Failed to delete object: " ++ e.message)
      pure ())
  let nonexistent_key ← generate_unique_name "nonexistent-delete-object"
  catchS3
    (do
      let _ ← gwCall (.deleteObject (some tb) nonexistent_key none)
        (gw.delete_object (some tb) nonexistent_key none)
      let _ ← add_result "object_deletion_nonexistent" true
        "Delete operation on non-existent object succeeded (idempotent behavior)"
      pure ())
    (fun e => do
      if e.status_code = some 404 then
        let _ ← add_result "object_deletion_nonexistent" true
          "Delete operation on non-existent object returned 404 (acceptable behavior)"
        pure ()
      else
        let _ ← add_result "object_deletion_nonexistent" false
          ("Unexpected error deleting non-existent object: " ++ e.message)
        pure ())

/-- The ordered sequence of the seven probe-method invocations of
`ObjectChecks.run_checks` (lines 49-55), named for addressability. -/
def run_probes (gw : Gateway) (cfg : Config) : CatM Unit := do
  check_object_upload gw cfg
  check_object_download gw cfg
  check_object_head_operation gw cfg
  check_object_copy gw cfg
  check_object_listing gw cfg
  check_object_metadata gw cfg
  check_object_deletion gw cfg

/-- `ObjectChecks.run_checks`: create the scoped test bucket and register
it for cleanup; on `S3ClientError`, append a single failing result and
return early (no probes); otherwise run the seven probe methods in order
and return the ledger. -/
def run_checks (gw : Gateway) (cfg : Config) : CatM (List CheckResult) := do
  let tb ← generate_unique_name "object-test-bucket"
  modifyS (fun s => { s with test_bucket := tb })
  let created ← catchS3
    (do
      let _ ← gwCall (.createBucket tb) (gw.create_bucket tb)
      add_cleanup_item { itemType := "bucket", identifier := tb }
      pure true)
    (fun e => do
      let _ ← add_result "object_test_bucket_creation" false
        ("Failed to create test bucket for object operations: " ++ e.message)
      pure false)
  if created then
    run_probes gw cfg
    pure (← getS).results
  else
    pure (← getS).results

/-- The `objects` category as registered in the runner's
`available_checks`. -/
def category : Category :=
  { name := "objects", check_name := "objects", run := run_checks }

end ObjectChecks

namespace BucketChecks

/-- The deliberately invalid bucket name of
`_check_bucket_creation`. -/
def invalidBucketName : String := "Invalid_Bucket_Name_With_Underscores_And_Capitals"

/-- First `try` block of `BucketChecks._check_bucket_creation` (split out
for addressability): create a fresh bucket and expect HTTP 200. -/
def check_bucket_creation_valid (gw : Gateway) (bucket_name : String) : CatM Unit := do
  catchS3
    (do
      let response ← gwCall (.createBucket bucket_name) (gw.create_bucket bucket_name)
      add_cleanup_item { itemType := "bucket", identifier := bucket_name }
      if response.httpStatusCode = some 200 then
        let _ ← add_result "bucket_creation" true
          ("Successfully created bucket '" ++ bucket_name ++ "'")
        pure ()
      else
        let _ ← add_result "bucket_creation" false
          ("Unexpected response code: " ++ toString response.httpStatusCode)
        pure ())
    (fun e => do
      let _ ← add_result "bucket_creation" false ("Failed to create bucket: " ++ e.message)
      pure ())

/-- Second `try` block of `BucketChecks._check_bucket_creation` (split out
for addressability): attempt a create with an invalid bucket name; pass
iff the error code is `InvalidBucketName` or `BucketAlreadyExists`; an
unexpected success is a failure (and the bucket is then registered for
cleanup). -/
def check_bucket_creation_invalid (gw : Gateway) : CatM Unit := do
  catchS3
    (do
      let _ ← gwCall (.createBucket invalidBucketName) (gw.create_bucket invalidBucketName)
      let _ ← add_result "bucket_creation_invalid_name" false
        ("Created bucket with invalid name '" ++ invalidBucketName ++
          "' - this violates S3 naming rules")
      add_cleanup_item { itemType := "bucket", identifier := invalidBucketName })
    (fun e => do
      if e.error_code == some "InvalidBucketName" || e.error_code == some "BucketAlreadyExists" then
        let _ ← add_result "bucket_creation_invalid_name" true
          ("Correctly rejected invalid bucket name: " ++ toString e.error_code)
        pure ()
      else
        let _ ← add_result "bucket_creation_invalid_name" false
          ("Unexpected error for invalid bucket name: " ++ e.message)
        pure ())

/-- `BucketChecks._check_bucket_creation`: create a fresh bucket (expect
HTTP 200), then attempt a create with an invalid name (pass iff the error
code is `InvalidBucketName` or `BucketAlreadyExists`). -/
def check_bucket_creation (gw : Gateway) : CatM Unit := do
  let bucket_name ← generate_unique_name "test-bucket"
  check_bucket_creation_valid gw bucket_name
  check_bucket_creation_invalid gw

/-- `BucketChecks._check_bucket_listing`: list buckets, then validate each
entry has `Name` and `CreationDate` (first bad entry fails and returns). -/
def check_bucket_listing (gw : Gateway) : CatM Unit := do
  catchS3
    (do
      let response ← gwCall .listBuckets gw.list_buckets
      match response.buckets with
      | some buckets => do
        let _ ← add_result "bucket_listing" true
          ("Successfully listed " ++ toString buckets.length ++ " buckets")
        match buckets.find? (fun b => b.name.isNone || b.creationDate.isNone) with
        | some _ => do
          let _ ← add_result "bucket_listing_structure" false
            "Bucket list contains invalid bucket structure"
          pure ()
        | none => do
          let _ ← add_result "bucket_listing_structure" true
            "Bucket listing has correct structure"
          pure ()
      | none => do
        let _ ← add_result "bucket_listing" false "Response missing 'Buckets' field"
        pure ())
    (fun e => do
      let _ ← add_result "bucket_listing" false ("Failed to list buckets: " ++ e.message)
      pure ())

/-- `BucketChecks._check_bucket_head_operation`: head an existing bucket
(expect 200), then head a nonexistent bucket (pass iff 404). -/
def check_bucket_head_operation (gw : Gateway) : CatM Unit := do
  let bucket_name ← generate_unique_name "head-test-bucket"
  catchS3
    (do
      let _ ← gwCall (.createBucket bucket_name) (gw.create_bucket bucket_name)
      add_cleanup_item { itemType := "bucket", identifier := bucket_name }
      let response ← gwCall (.headBucket bucket_name) (gw.head_bucket bucket_name)
      if response.httpStatusCode = some 200 then
        let _ ← add_result "bucket_head_existing" true
          ("Successfully performed head operation on existing bucket '" ++ bucket_name ++ "'")
        pure ()
      else
        let _ ← add_result "bucket_head_existing" false
          ("Unexpected response code for head operation: " ++ toString response.httpStatusCode)
        pure ())
    (fun e => do
      let _ ← add_result "bucket_head_existing" false
        ("Failed head operation on existing bucket: " ++ e.message)
      pure ())
  let nonexistent_bucket ← generate_unique_name "nonexistent-bucket"
  catchS3
    (do
      let _ ← gwCall (.headBucket nonexistent_bucket) (gw.head_bucket nonexistent_bucket)
      let _ ← add_result "bucket_head_nonexistent" false
        ("Head operation succeeded on non-existent bucket '" ++ nonexistent_bucket ++ "'")
      pure ())
    (fun e => do
      if e.status_code = some 404 then
        let _ ← add_result "bucket_head_nonexistent" true
          "Correctly returned 404 for non-existent bucket"
        pure ()
      else
        let _ ← add_result "bucket_head_nonexistent" false
          ("Unexpected error code for non-existent bucket: " ++ toString e.status_code)
        pure ())

/-- `BucketChecks._check_bucket_versioning`: default versioning state
should be disabled/absent; then enable versioning and read it back. -/
def check_bucket_versioning (gw : Gateway) : CatM Unit := do
  let bucket_name ← generate_unique_name "versioning-test-bucket"
  catchS3
    (do
      let _ ← gwCall (.createBucket bucket_name) (gw.create_bucket bucket_name)
      add_cleanup_item { itemType := "bucket", identifier := bucket_name }
      let response ← gwCall (.getBucketVersioning bucket_name)
        (gw.get_bucket_versioning bucket_name)
      let status := response.status.getD "Disabled"
      if status = "Disabled" || response.status.isNone then
        let _ ← add_result "bucket_versioning_default" true
          "Bucket versioning correctly disabled by default"
        pure ()
      else
        let _ ← add_result "bucket_versioning_default" false
          ("Unexpected default versioning status: " ++ status)
        pure ()
      let _ ← gwCall (.putBucketVersioning bucket_name "Enabled")
        (gw.put_bucket_versioning bucket_name "Enabled")
      let response2 ← gwCall (.getBucketVersioning bucket_name)
        (gw.get_bucket_versioning bucket_name)
      if response2.status == some "Enabled" then
        let _ ← add_result "bucket_versioning_enable" true
          "Successfully enabled bucket versioning"
        pure ()
      else
        let _ ← add_result "bucket_versioning_enable" false
          ("Failed to enable versioning, status: " ++ toString response2.status)
        pure ())
    (fun e => do
      let _ ← add_result "bucket_versioning" false
        ("Failed versioning operations: " ++ e.message)
      pure ())

/-- `BucketChecks._check_bucket_tagging`: put two tags, read them back,
then delete the tags and verify (404 after deletion also passes). -/
def check_bucket_tagging (gw : Gateway) : CatM Unit := do
  let bucket_name ← generate_unique_name "tagging-test-bucket"
  catchS3
    (do
      let _ ← gwCall (.createBucket bucket_name) (gw.create_bucket bucket_name)
      add_cleanup_item { itemType := "bucket", identifier := bucket_name }
      let _ ← gwCall (.putBucketTagging bucket_name)
        (gw.put_bucket_tagging bucket_name
          [{ key := "Environment", value := "Test" },
           { key := "Purpose", value := "S3CompatibilityCheck" }])
      let response ← gwCall (.getBucketTagging bucket_name)
        (gw.get_bucket_tagging bucket_name)
      let returned_tags := response.tagSet.getD []
      if returned_tags.length = 2 then
        let tag_dict := pyDictGet (returned_tags.map fun t => (t.key, t.value))
        if tag_dict "Environment" == some "Test" &&
            tag_dict "Purpose" == some "S3CompatibilityCheck" then
          let _ ← add_result "bucket_tagging_put_get" true
            "Successfully set and retrieved bucket tags"
          pure ()
        else
          let _ ← add_result "bucket_tagging_put_get" false "Tag values don't match"
          pure ()
      else
        let _ ← add_result "bucket_tagging_put_get" false
          ("Expected 2 tags, got " ++ toString returned_tags.length)
        pure ()
      let _ ← gwCall (.deleteBucketTagging bucket_name)
        (gw.delete_bucket_tagging bucket_name)
      catchS3
        (do
          let response2 ← gwCall (.getBucketTagging bucket_name)
            (gw.get_bucket_tagging bucket_name)
          let remaining_tags := response2.tagSet.getD []
          if remaining_tags.isEmpty then
            let _ ← add_result "bucket_tagging_delete" true
              "Successfully deleted bucket tags"
            pure ()
          else
            let _ ← add_result "bucket_tagging_delete" false
              "Tags still exist after deletion"
            pure ())
        (fun e => do
          if e.status_code = some 404 then
            let _ ← add_result "bucket_tagging_delete" true
              "Successfully deleted bucket tags (404 response)"
            pure ()
          else
            let _ ← add_result "bucket_tagging_delete" false
              ("Unexpected error after tag deletion: " ++ e.message)
            pure ()))
    (fun e => do
      let _ ← add_result "bucket_tagging" false
        ("Failed bucket tagging operations: " ++ e.message)
      pure ())

/-- `BucketChecks._check_bucket_deletion`: create and delete an empty
bucket (expect 204, then drop it from the cleanup registry); then delete a
nonexistent bucket (pass iff 404). -/
def check_bucket_deletion (gw : Gateway) : CatM Unit := do
  let bucket_name ← generate_unique_name "delete-test-bucket"
  catchS3
    (do
      let _ ← gwCall (.createBucket bucket_name) (gw.create_bucket bucket_name)
      let response ← gwCall (.deleteBucket bucket_name) (gw.delete_bucket bucket_name)
      if response.httpStatusCode = some 204 then do
        let _ ← add_result "bucket_deletion_empty" true
          ("Successfully deleted empty bucket '" ++ bucket_name ++ "'")
        modifyS (fun s =>
          let kept := s.cleanup_items.filter
            (fun item => !(item.itemType == "bucket" && item.identifier == bucket_name))
          { s with cleanup_items := kept })
      else do
        let _ ← add_result "bucket_deletion_empty" false
          ("Unexpected response code for bucket deletion: " ++ toString response.httpStatusCode)
        pure ())
    (fun e => do
      let _ ← add_result "bucket_deletion_empty" false
        ("Failed to delete empty bucket: " ++ e.message)
      pure ())
  let nonexistent_bucket ← generate_unique_name "nonexistent-delete-bucket"
  catchS3
    (do
      let _ ← gwCall (.deleteBucket nonexistent_bucket) (gw.delete_bucket nonexistent_bucket)
      let _ ← add_result "bucket_deletion_nonexistent" false
        ("Delete succeeded on non-existent bucket '" ++ nonexistent_bucket ++ "'")
      pure ())
    (fun e => do
      if e.status_code = some 404 then
        let _ ← add_result "bucket_deletion_nonexistent" true
          "Correctly returned 404 for non-existent bucket deletion"
        pure ()
      else
        let _ ← add_result "bucket_deletion_nonexistent" false
          ("Unexpected error code for non-existent bucket deletion: " ++ toString e.status_code)
        pure ())

/-- `BucketChecks.run_checks`: unlike the bucket-scoped categories, it
creates no scoped test bucket — it runs its six probe methods directly and
returns the ledger. -/
def run_checks (gw : Gateway) (_cfg : Config) : CatM (List CheckResult) := do
  check_bucket_creation gw
  check_bucket_listing gw
  check_bucket_head_operation gw
  check_bucket_versioning gw
  check_bucket_tagging gw
  check_bucket_deletion gw
  pure (← getS).results

/-- The `buckets` category as registered in the runner's
`available_checks`. -/
def category : Category :=
  { name := "buckets", check_name := "buckets", run := run_checks }

end BucketChecks

/-- The preservation rate computed by the metadata threshold probes:
`success_rate = preserved / total` (float in Python, exact here; the
comparisons the probes make agree in both arithmetics on all reachable
values). -/
def metaSuccessRate (preserved total : Nat) : ℚ :=
  (preserved : ℚ) / (total : ℚ)

namespace MetadataChecks

/-- `MetadataChecks._generate_test_data` (default content
`'S3 metadata test data'`). -/
def gen_test_data (cfg : Config) (size : Nat) (content? : Option String) : List Nat :=
  generate_test_data cfg "S3 metadata test data" size content?

/-- The six standard headers tested by
`_check_standard_metadata_headers`. -/
def standardMetadata : List (String × String) :=
  [("ContentType", "application/json"),
   ("ContentEncoding", "gzip"),
   ("ContentDisposition", "attachment; filename=\"test.json\""),
   ("ContentLanguage", "en-US"),
   ("CacheControl", "max-age=3600, no-cache"),
   ("Expires", "Wed, 21 Oct 2025 07:28:00 GMT")]

/-- The `try` block of `MetadataChecks._check_standard_metadata_headers`
(split out for addressability). -/
def check_standard_metadata_headers_body (gw : Gateway) (cfg : Config) (test_key : String) :
    CatM Unit := do
  let tb := (← getS).test_bucket
  let test_data := gen_test_data cfg 1024 none
  catchS3
    (do
      let put_response ← gwCall (.putObject tb test_key)
        (gw.put_object { bucket := tb, key := test_key, body := test_data,
                         extraHeaders := standardMetadata })
      add_cleanup_item { itemType := "object", identifier := test_key, bucket := some tb }
      if put_response.eTag.isNone then do
        let _ ← add_result "standard_metadata_upload" false
          "Upload with standard metadata failed - no ETag returned"
        pure ()
      else do
        let head_response ← gwCall (.headObject tb test_key) (gw.head_object tb test_key)
        let verified_headers := standardMetadata.filter
          (fun p => head_response.headers.lookup p.1 == some p.2)
        let success_rate := metaSuccessRate verified_headers.length standardMetadata.length
        let _ ← add_result "standard_metadata_headers" (decide (success_rate ≥ 0.8))
          ("Standard metadata headers: " ++ toString verified_headers.length ++ "/" ++
            toString standardMetadata.length ++ " preserved correctly")
        pure ())
    (fun e => do
      let _ ← add_result "standard_metadata_headers" false
        ("Failed to test standard metadata headers: " ++ e.message)
      pure ())

/-- `MetadataChecks._check_standard_metadata_headers`: upload with six
standard headers, head the object, and pass iff at least 80% of the
headers round-trip (`success_rate >= 0.8`). -/
def check_standard_metadata_headers (gw : Gateway) (cfg : Config) : CatM Unit := do
  let test_key ← generate_unique_name "standard-metadata-test"
  check_standard_metadata_headers_body gw cfg test_key

/-- The seven custom-metadata fields tested by `_check_custom_metadata`. -/
def customMetadata : List (String × String) :=
  [("author", "S3CompatibilityChecker"),
   ("project", "metadata-testing"),
   ("version", "1.0.0"),
   ("environment", "test"),
   ("numeric-value", "42"),
   ("boolean-value", "true"),
   ("special-chars", "test@example.com")]

/-- The `try` block of `MetadataChecks._check_custom_metadata` (split out
for addressability). -/
def check_custom_metadata_body (gw : Gateway) (cfg : Config) (test_key : String) :
    CatM Unit := do
  let tb := (← getS).test_bucket
  let test_data := gen_test_data cfg 512 none
  catchS3
    (do
      let put_response ← gwCall (.putObject tb test_key)
        (gw.put_object { bucket := tb, key := test_key, body := test_data,
                         metadata := customMetadata, contentType := some "text/plain" })
      add_cleanup_item { itemType := "object", identifier := test_key, bucket := some tb }
      if put_response.eTag.isNone then do
        let _ ← add_result "custom_metadata_upload" false
          "Upload with custom metadata failed - no ETag returned"
        pure ()
      else do
        let head_response ← gwCall (.headObject tb test_key) (gw.head_object tb test_key)
        let returned_metadata := head_response.metadata
        let verified_metadata := customMetadata.filter
          (fun p => returned_metadata.lookup p.1 == some p.2)
        let success_rate := metaSuccessRate verified_metadata.length customMetadata.length
        let _ ← add_result "custom_metadata_preservation" (decide (success_rate ≥ 0.9))
          ("Custom metadata: " ++ toString verified_metadata.length ++ "/" ++
            toString customMetadata.length ++ " fields preserved correctly")
        pure ())
    (fun e => do
      let _ ← add_result "custom_metadata_preservation" false
        ("Failed to test custom metadata: " ++ e.message)
      pure ())

/-- `MetadataChecks._check_custom_metadata`: upload with seven custom
metadata fields and pass iff at least 90% are preserved
(`success_rate >= 0.9`). -/
def check_custom_metadata (gw : Gateway) (cfg : Config) : CatM Unit := do
  let test_key ← generate_unique_name "custom-metadata-test"
  check_custom_metadata_body gw cfg test_key

/-- The seven encoding-test fields of `_check_metadata_encoding`
(`urllib.parse.quote('test@example.com')` evaluates to
`'test%40example.com'`). -/
def encodingMetadata : List (String × String) :=
  [("ascii-text", "simple-ascii-value"),
   ("utf8-text", "café-München-日本"),
   ("spaces", "value with spaces"),
   ("url-encoded", "test%40example.com"),
   ("special-symbols", "!@#$%^&*()"),
   ("numbers", "123456789"),
   ("mixed", "Test_123-Value@2024")]

/-- The `try` block of `MetadataChecks._check_metadata_encoding` (split
out for addressability). -/
def check_metadata_encoding_body (gw : Gateway) (cfg : Config) (test_key : String) :
    CatM Unit := do
  let tb := (← getS).test_bucket
  let test_data := gen_test_data cfg 256 none
  catchS3
    (do
      let put_response ← gwCall (.putObject tb test_key)
        (gw.put_object { bucket := tb, key := test_key, body := test_data,
                         metadata := encodingMetadata,
                         contentType := some "application/octet-stream" })
      add_cleanup_item { itemType := "object", identifier := test_key, bucket := some tb }
      if put_response.eTag.isNone then do
        let _ ← add_result "metadata_encoding" false
          "Upload with encoded metadata failed - no ETag returned"
        pure ()
      else do
        let head_response ← gwCall (.headObject tb test_key) (gw.head_object tb test_key)
        let returned_metadata := head_response.metadata
        let preserved := encodingMetadata.filter
          (fun p => returned_metadata.lookup p.1 == some p.2)
        let success_rate := metaSuccessRate preserved.length encodingMetadata.length
        let _ ← add_result "metadata_encoding_handling" (decide (success_rate ≥ 0.7))
          ("Metadata encoding: " ++ toString preserved.length ++ "/" ++
            toString encodingMetadata.length ++ " values preserved correctly")
        pure ())
    (fun e => do
      let _ ← add_result "metadata_encoding_handling" false
        ("Failed to test metadata encoding: " ++ e.message)
      pure ())

/-- `MetadataChecks._check_metadata_encoding`: upload with special-character
metadata values and pass iff at least 70% round-trip unchanged
(`success_rate >= 0.7`); the preserved/modified/missing breakdown is
diagnostic-only. -/
def check_metadata_encoding (gw : Gateway) (cfg : Config) : CatM Unit := do
  let test_key ← generate_unique_name "encoding-metadata-test"
  check_metadata_encoding_body gw cfg test_key

/-- The source-object metadata of `_check_metadata_copy_behavior`. -/
def sourceMetadata : List (String × String) :=
  [("original-author", "source-creator"),
   ("creation-time", "2024-01-01"),
   ("category", "original")]

/-- The replacement metadata of `_check_metadata_copy_behavior`. -/
def newMetadata : List (String × String) :=
  [("new-author", "copy-creator"),
   ("modified-time", "2024-12-01"),
   ("category", "modified")]

/-- `MetadataChecks._check_metadata_copy_behavior`: upload a source object
with metadata — and register BOTH the source key and the (not yet created)
destination key for cleanup — then copy with default metadata preservation
(pass iff at least 80% of the fields carried over), then register the (not
yet created) replacement key and copy with `MetadataDirective='REPLACE'`
(pass iff the new metadata is fully set and the old fully absent). -/
def check_metadata_copy_behavior (gw : Gateway) (cfg : Config) : CatM Unit := do
  let tb := (← getS).test_bucket
  let source_key ← generate_unique_name "copy-source-metadata"
  let dest_key ← generate_unique_name "copy-dest-metadata"
  let test_data := gen_test_data cfg 512 none
  catchS3
    (do
      let put_response ← gwCall (.putObject tb source_key)
        (gw.put_object { bucket := tb, key := source_key, body := test_data,
                         metadata := sourceMetadata, contentType := some "text/plain" })
      add_cleanup_item { itemType := "object", identifier := source_key, bucket := some tb }
      add_cleanup_item { itemType := "object", identifier := dest_key, bucket := some tb }
      if put_response.eTag.isNone then do
        let _ ← add_result "metadata_copy_behavior" false
          "Failed to create source object for copy test"
        pure ()
      else do
        let _ ← gwCall (.copyObject tb dest_key tb source_key)
          (gw.copy_object { bucket := tb, key := dest_key, srcBucket := tb,
                            srcKey := source_key })
        let dest_head ← gwCall (.headObject tb dest_key) (gw.head_object tb dest_key)
        let dest_metadata := dest_head.metadata
        let preserved_fields := sourceMetadata.filter
          (fun p => dest_metadata.lookup p.1 == some p.2)
        let preservation_rate := metaSuccessRate preserved_fields.length sourceMetadata.length
        let _ ← add_result "metadata_copy_preservation" (decide (preservation_rate ≥ 0.8))
          ("Copy operation metadata preservation: " ++ toString preserved_fields.length ++
            "/" ++ toString sourceMetadata.length ++ " fields preserved")
        let replacement_key ← generate_unique_name "copy-replacement-metadata"
        add_cleanup_item { itemType := "object", identifier := replacement_key, bucket := some tb }
        let _ ← gwCall (.copyObject tb replacement_key tb source_key)
          (gw.copy_object { bucket := tb, key := replacement_key, srcBucket := tb,
                            srcKey := source_key, metadata := some newMetadata,
                            metadataDirective := some "REPLACE" })
        let replace_head ← gwCall (.headObject tb replacement_key)
          (gw.head_object tb replacement_key)
        let replace_metadata := replace_head.metadata
        let replaced_correctly := newMetadata.all
          (fun p => replace_metadata.lookup p.1 == some p.2)
        let old_metadata_absent := sourceMetadata.all
          (fun p => (replace_metadata.lookup p.1).isNone)
        let _ ← add_result "metadata_copy_replacement" (replaced_correctly && old_metadata_absent)
          "Copy with metadata replacement"
        pure ())
    (fun e => do
      let _ ← add_result "metadata_copy_operations" false
        ("Failed to test metadata copy behavior: " ++ e.message)
      pure ())

end MetadataChecks

/-! Trace characterisations and specification predicates used by the
theorems below. -/

/-- The gateway-call events the inner deletion loop of `_cleanup_bucket`
emits for a given `Contents` listing (stops after the first failure). -/
def deleteObjectsEvents (gw : Gateway) (bucket : String) : List ObjEntry → List Event
  | [] => []
  | obj :: rest =>
    match gw.delete_object (some bucket) obj.key none with
    | .ok _ => (.call (.deleteObject (some bucket) obj.key none) true) ::
        deleteObjectsEvents gw bucket rest
    | .error _ => [.call (.deleteObject (some bucket) obj.key none) false]

/-- The gateway-call events `_cleanup_bucket` emits: the best-effort
listing and deletion of remaining objects, then the `delete_bucket`
attempt. -/
def bucketTeardownEvents (gw : Gateway) (bucket : String) : List Event :=
  (match gw.list_objects_v2 bucket none with
   | .ok resp =>
     (.call (.listObjectsV2 bucket none) true) ::
       (match resp.contents with
        | some objs => deleteObjectsEvents gw bucket objs
        | none => [])
   | .error _ => [.call (.listObjectsV2 bucket none) false]) ++
  [.call (.deleteBucket bucket) (gw.delete_bucket bucket).isOk]

/-- The gateway-call events one iteration of the `cleanup` loop emits for
one registry item under gateway `gw`. -/
def cleanupItemEvents (gw : Gateway) (item : CleanupItem) : List Event :=
  if item.itemType = "bucket" then
    bucketTeardownEvents gw item.identifier
  else if item.itemType = "object" then
    [.call (.deleteObject item.bucket item.identifier item.version_id)
      (gw.delete_object item.bucket item.identifier item.version_id).isOk]
  else if item.itemType = "multipart_upload" then
    [.call (.abortMultipartUpload (item.bucket.getD "") item.identifier item.upload_id)
      (gw.abort_multipart_upload (item.bucket.getD "") item.identifier item.upload_id).isOk]
  else []

/-- The `create_bucket` attempts recorded in a trace (bucket name and
outcome). -/
def callsCB (evs : List Event) : List (String × Bool) :=
  evs.filterMap fun ev =>
    match ev with
    | .call (.createBucket b) ok => some (b, ok)
    | _ => none

/-- Whether a successful gateway call `c` establishes the remote existence
of the resource a cleanup item denotes: buckets are created by
`create_bucket`, objects by `put_object` or `copy_object` to that
bucket/key. -/
def createsB (c : S3Call) (it : CleanupItem) : Bool :=
  if it.itemType = "bucket" then c == .createBucket it.identifier
  else if it.itemType = "object" then
    match it.bucket, c with
    | some b, .putObject b' k => b' == b && k == it.identifier
    | some b, .copyObject b' k _ _ => b' == b && k == it.identifier
    | _, _ => false
  else false

/-- Whether some already-seen event is a successful call creating the
resource of `it`. -/
def seenCreates (seen : List Event) (it : CleanupItem) : Bool :=
  seen.any fun pv =>
    match pv with
    | .call c true => createsB c it
    | _ => false

/-- Registration discipline on an event trace: every cleanup registration
is preceded (given the events `seen` so far) by a successful gateway call
that created that resource. -/
def regJustifiedB (seen : List Event) : List Event → Bool
  | [] => true
  | ev :: rest =>
    (match ev with
     | .registered it => seenCreates seen it
     | _ => true) && regJustifiedB (seen ++ [ev]) rest

/-- No `S3ClientError` escapes the computation: the probe-boundary
isolation property of the category probe methods. -/
def NoS3 {α : Type} (m : CatM α) : Prop :=
  ∀ s e, (m s).1 ≠ Except.error (Exn.s3 e)

/-- Whether a call is a `create_bucket` attempt. -/
def isCreateBucketCall : S3Call → Bool
  | .createBucket _ => true
  | _ => false

/-- The computation makes no `create_bucket` attempt. -/
def NoNewCB {α : Type} (m : CatM α) : Prop :=
  ∀ s, callsCB ((m s).2).events = callsCB s.events

/-- The computation preserves the registration discipline: if every
registration so far was preceded by a successful creating call, the same
holds after running it. -/
def JustOK1 {α : Type} (m : CatM α) : Prop :=
  ∀ s seen, regJustifiedB seen s.events = true →
    regJustifiedB seen ((m s).2).events = true

/-- The `bucket_creation_invalid_name` result the rejected-create branch
of `_check_bucket_creation` appends for a gateway error `e`: pass iff the
error code (not the HTTP status) is `InvalidBucketName` or
`BucketAlreadyExists`. -/
def invalidNameResult (e : S3ClientError) : CheckResult :=
  if e.error_code == some "InvalidBucketName" || e.error_code == some "BucketAlreadyExists" then
    { name := "bucket_creation_invalid_name", success := true,
      message := "Correctly rejected invalid bucket name: " ++ toString e.error_code }
  else
    { name := "bucket_creation_invalid_name", success := false,
      message := "Unexpected error for invalid bucket name: " ++ e.message }

/-- The `object_download_nonexistent` result the error branch of the
nonexistent-download block appends: pass iff the HTTP status is 404. -/
def nonexistentDownloadResult (e : S3ClientError) : CheckResult :=
  if e.status_code = some 404 then
    { name := "object_download_nonexistent", success := true,
      message := "Correctly returned 404 for non-existent object" }
  else
    { name := "object_download_nonexistent", success := false,
      message := "Unexpected error code for non-existent object: " ++ toString e.status_code }

/-- The single failing result `ObjectChecks.run_checks` appends when the
scoped test bucket cannot be created. -/
def objectBucketFailResult (e : S3ClientError) : CheckResult :=
  { name := "object_test_bucket_creation", success := false,
    message := "Failed to create test bucket for object operations: " ++ e.message }

/-- Headers verified by the standard-metadata probe for a given head
response. -/
def stdVerified (hr : HeadObjectResp) : Nat :=
  (MetadataChecks.standardMetadata.filter
    (fun p => hr.headers.lookup p.1 == some p.2)).length

/-- Fields verified by the custom-metadata probe for a given head
response. -/
def customVerified (hr : HeadObjectResp) : Nat :=
  (MetadataChecks.customMetadata.filter
    (fun p => hr.metadata.lookup p.1 == some p.2)).length

/-- Values preserved according to the encoding probe for a given head
response. -/
def encVerified (hr : HeadObjectResp) : Nat :=
  (MetadataChecks.encodingMetadata.filter
    (fun p => hr.metadata.lookup p.1 == some p.2)).length

/-- The source-object `put_object` arguments of
`_check_metadata_copy_behavior` when run from state `s`. -/
def metaCopyPutArgs (cfg : Config) (s : CatState) : PutArgs :=
  { bucket := s.test_bucket, key := "copy-source-metadata-" ++ toString s.clock,
    body := MetadataChecks.gen_test_data cfg 512 none,
    metadata := MetadataChecks.sourceMetadata, contentType := some "text/plain" }

/-- The cleanup item `_check_metadata_copy_behavior` registers for its
source key. -/
def metaSrcItem (s : CatState) : CleanupItem :=
  { itemType := "object", identifier := "copy-source-metadata-" ++ toString s.clock,
    bucket := some s.test_bucket }

/-- The cleanup item `_check_metadata_copy_behavior` registers for its
destination key — before the copy that would create it is attempted. -/
def metaDestItem (s : CatState) : CleanupItem :=
  { itemType := "object", identifier := "copy-dest-metadata-" ++ toString (s.clock + 1),
    bucket := some s.test_bucket }

/-! Concrete gateways, configurations and initial states used by the
witnesses and counterexamples. -/

/-- A generic wrapper error (HTTP 500). -/
def errGeneric : S3ClientError :=
  { message := "boom", error_code := some "InternalError", status_code := some 500 }

/-- An access-denied error: HTTP 403 with error code `AccessDenied`. -/
def err403 : S3ClientError :=
  { message := "denied", error_code := some "AccessDenied", status_code := some 403 }

/-- A missing-resource error: HTTP 404. -/
def err404 : S3ClientError :=
  { message := "missing", error_code := some "NoSuchKey", status_code := some 404 }

/-- A gateway on which every operation fails with `errGeneric`. -/
def gwAllFail : Gateway :=
  { create_bucket := fun _ => .error errGeneric
    delete_bucket := fun _ => .error errGeneric
    head_bucket := fun _ => .error errGeneric
    list_buckets := .error errGeneric
    put_bucket_versioning := fun _ _ => .error errGeneric
    get_bucket_versioning := fun _ => .error errGeneric
    put_bucket_tagging := fun _ _ => .error errGeneric
    get_bucket_tagging := fun _ => .error errGeneric
    delete_bucket_tagging := fun _ => .error errGeneric
    put_object := fun _ => .error errGeneric
    get_object := fun _ _ => .error errGeneric
    delete_object := fun _ _ _ => .error errGeneric
    head_object := fun _ _ => .error errGeneric
    copy_object := fun _ => .error errGeneric
    list_objects_v2 := fun _ _ => .error errGeneric
    list_objects := fun _ _ => .error errGeneric
    put_object_tagging := fun _ _ _ => .error errGeneric
    get_object_tagging := fun _ _ => .error errGeneric
    abort_multipart_upload := fun _ _ _ => .error errGeneric }

/-- A gateway on which every operation succeeds with a minimal payload. -/
def gwAllOk : Gateway :=
  { create_bucket := fun _ => .ok { httpStatusCode := some 200 }
    delete_bucket := fun _ => .ok { httpStatusCode := some 204 }
    head_bucket := fun _ => .ok { httpStatusCode := some 200 }
    list_buckets := .ok { buckets := some [] }
    put_bucket_versioning := fun _ _ => .ok ()
    get_bucket_versioning := fun _ => .ok { status := some "Enabled" }
    put_bucket_tagging := fun _ _ => .ok ()
    get_bucket_tagging := fun _ => .ok { tagSet := some [] }
    delete_bucket_tagging := fun _ => .ok ()
    put_object := fun _ => .ok { eTag := some "etag-1" }
    get_object := fun _ _ => .ok { body := .ok [] }
    delete_object := fun _ _ _ => .ok {}
    head_object := fun _ _ => .ok {}
    copy_object := fun _ => .ok { copyObjectResult := some { eTag := some "etag-2" } }
    list_objects_v2 := fun _ _ => .ok { contents := some [] }
    list_objects := fun _ _ => .ok { contents := some [] }
    put_object_tagging := fun _ _ _ => .ok ()
    get_object_tagging := fun _ _ => .ok { tagSet := some [] }
    abort_multipart_upload := fun _ _ _ => .ok () }

/-- `gwAllOk`, except that reading a downloaded object's body fails with a
stream error — a failure that the wrapper does not normalise to
`S3ClientError`. -/
def gwStray : Gateway :=
  { gwAllOk with get_object := fun _ _ => .ok { body := .error "connection reset" } }

/-- `gwAllOk`, except that `head_object` on the head-probe's key (the
third probe of `ObjectChecks`) fails with an `S3ClientError`, and
`get_object` fails with 404. -/
def gwProbe3Fail : Gateway :=
  { gwAllOk with
    get_object := fun _ _ => .error err404
    head_object := fun _ k =>
      if k = "head-test-object-6" then .error errGeneric else .ok {} }

/-- `gwAllOk`, except that every `copy_object` fails: the copy destination
never comes to exist. -/
def gwCopyFail : Gateway :=
  { gwAllOk with copy_object := fun _ => .error errGeneric }

/-- Create-bucket behaviour rejecting only the invalid name, with 403. -/
def createReject403 (b : String) : Except S3ClientError CreateBucketResp :=
  if b = BucketChecks.invalidBucketName then .error err403
  else .ok { httpStatusCode := some 200 }

/-- A gateway that rejects the invalid-name bucket creation with HTTP 403
(`AccessDenied`) and accepts every other create with HTTP 200. -/
def gwInvalid403 : Gateway :=
  { gwAllOk with create_bucket := createReject403 }

/-- A head response carrying five of the six standard headers, all seven
custom-metadata fields, and four of the seven encoding fields. -/
def metaHeadResp : HeadObjectResp :=
  { headers := MetadataChecks.standardMetadata.tail
    metadata := MetadataChecks.customMetadata ++ MetadataChecks.encodingMetadata.take 4 }

/-- A gateway whose `head_object` always returns `metaHeadResp`. -/
def gwMetaHead : Gateway :=
  { gwAllOk with head_object := fun _ _ => .ok metaHeadResp }

/-- A small configuration: one-byte test files, content `"a"`; cleanup
enabled by default (no `cleanup_enabled` key). -/
def cfgTiny : Config :=
  { test_data := some { small_file_size := some 1, medium_file_size := some 1,
                        test_file_content := some "a" } }

/-- The fresh instance state of the `objects` category. -/
def objInit : CatState := { check_name := "objects" }

/-- The fresh instance state of the `buckets` category. -/
def bktInit : CatState := { check_name := "buckets" }

/-- A metadata-category state with its scoped test bucket provisioned. -/
def metaInit : CatState := { check_name := "metadatas", test_bucket := "mb" }

end S3Spec

namespace S3Spec

/-! Concrete category summaries, category lists and registry states used
by the theorems below. -/

/-- A category summary with 5 checks, 4 passed (used by the aggregation
theorem). -/
def exCat1 : CategorySummary :=
  { check_category := "cat1", total_checks := 5, passed := 4, failed := 1,
    success_rate := 80, results := [] }

/-- A category summary with 3 checks, all passed. -/
def exCat2 : CategorySummary :=
  { check_category := "cat2", total_checks := 3, passed := 3, failed := 0,
    success_rate := 100, results := [] }

/-- The two categories used by the C7 witness run. -/
def witnessCats : List Category := [BucketChecks.category, ObjectChecks.category]

/-- Items of a given cleanup priority, in registration order. -/
def priFilter (n : Nat) (l : List CleanupItem) : List CleanupItem :=
  l.filter (fun it => cleanupPriority it.itemType == n)

/-- A bucket cleanup item used to exercise the bucket-teardown order. -/
def bItemW : CleanupItem := { itemType := "bucket", identifier := "wb" }

/-- A category state with a mixed cleanup registry: a bucket, two objects
and a multipart upload, registered out of priority order. -/
def sMixed : CatState :=
  { check_name := "mixed",
    cleanup_items :=
      [{ itemType := "bucket", identifier := "wb" },
       { itemType := "object", identifier := "o1", bucket := some "wb" },
       { itemType := "multipart_upload", identifier := "o2", bucket := some "wb",
         upload_id := some "u1" },
       { itemType := "object", identifier := "o3", bucket := some "wb" }] }

end S3Spec

/-! # Theorems

State characterisations of the cleanup pass, the runner loop, and the
probe methods, followed by the compositional probe-boundary and
registration-discipline properties and the claim theorems with their
witnesses and counterexamples. -/

namespace S3Spec

theorem deleteObjectsLoop_state (gw : Gateway) (b : String) (objs : List ObjEntry) :
    ∀ s, deleteObjectsLoop gw b objs s =
      { s with events := s.events ++ deleteObjectsEvents gw b objs } := by
  induction objs with
  | nil => intro s; simp [deleteObjectsLoop, deleteObjectsEvents]
  | cons o rest ih =>
    intro s
    cases h : gw.delete_object (some b) o.key none with
    | ok v => simp [deleteObjectsLoop, deleteObjectsEvents, h, ih, CatState.logCall]
    | error e => simp [deleteObjectsLoop, deleteObjectsEvents, h, CatState.logCall]

theorem cleanup_bucket_state (gw : Gateway) (item : CleanupItem) (s : CatState) :
    (cleanup_bucket gw item s).2 =
      { s with events := s.events ++ bucketTeardownEvents gw item.identifier } := by
  unfold cleanup_bucket bucketTeardownEvents
  cases hl : gw.list_objects_v2 item.identifier none with
  | ok resp =>
    cases hc : resp.contents with
    | some objs =>
      cases hd : gw.delete_bucket item.identifier <;>
        simp [hl, hc, hd, CatState.logCall, deleteObjectsLoop_state, Except.isOk, Except.toBool]
    | none =>
      cases hd : gw.delete_bucket item.identifier <;>
        simp [hl, hc, hd, CatState.logCall, Except.isOk, Except.toBool]
  | error e =>
    cases hd : gw.delete_bucket item.identifier <;>
      simp [hl, hd, CatState.logCall, Except.isOk, Except.toBool]

theorem cleanupItemStep_state (gw : Gateway) (item : CleanupItem) (s : CatState) :
    (cleanupItemStep gw item s).2 =
      { s with events := s.events ++ cleanupItemEvents gw item } := by
  unfold cleanupItemStep cleanupItemEvents
  by_cases hb : item.itemType = "bucket"
  · simp [hb, cleanup_bucket_state]
  · by_cases ho : item.itemType = "object"
    · cases hd : gw.delete_object item.bucket item.identifier item.version_id <;>
        simp [hb, ho, cleanup_object, hd, CatState.logCall, Except.isOk, Except.toBool]
    · by_cases hm : item.itemType = "multipart_upload"
      · cases hd : gw.abort_multipart_upload (item.bucket.getD "") item.identifier item.upload_id <;>
          simp [hb, ho, hm, cleanup_multipart_upload, hd, CatState.logCall, Except.isOk, Except.toBool]
      · simp [hb, ho, hm]

theorem cleanupProcess_state (gw : Gateway) (l : List CleanupItem) :
    ∀ s, (cleanupProcess gw l s).2 =
      { s with events := s.events ++ (l.map (cleanupItemEvents gw)).flatten } := by
  induction l with
  | nil => intro s; simp [cleanupProcess]
  | cons item rest ih =>
    intro s
    simp only [cleanupProcess]
    rw [show (cleanupItemStep gw item s) = ((cleanupItemStep gw item s).1, (cleanupItemStep gw item s).2) from rfl]
    simp only [ih, cleanupItemStep_state]
    simp

theorem cleanupRun_state (gw : Gateway) (s : CatState) :
    (cleanupRun gw s).2 =
      { s with cleanup_items := [],
               events := s.events ++
                 ((cleanupOrder s.cleanup_items).map (cleanupItemEvents gw)).flatten } := by
  unfold cleanupRun
  rw [show (cleanupProcess gw (cleanupOrder s.cleanup_items) s) =
    ((cleanupProcess gw (cleanupOrder s.cleanup_items) s).1,
     (cleanupProcess gw (cleanupOrder s.cleanup_items) s).2) from rfl]
  simp [cleanupProcess_state]

end S3Spec

namespace S3Spec

theorem cleanupPriority_cases (t : String) :
    cleanupPriority t = 0 ∨ cleanupPriority t = 1 ∨ cleanupPriority t = 2 ∨ cleanupPriority t = 3 := by
  unfold cleanupPriority
  split
  · exact Or.inl rfl
  · split
    · exact Or.inr (Or.inl rfl)
    · split
      · exact Or.inr (Or.inr (Or.inl rfl))
      · exact Or.inr (Or.inr (Or.inr rfl))


theorem mem_priFilter {n : Nat} {l : List CleanupItem} {b : CleanupItem}
    (h : b ∈ priFilter n l) : cleanupPriority b.itemType = n := by
  have := List.of_mem_filter h
  simpa using this

theorem orderedInsert_append (a : CleanupItem) (P Q : List CleanupItem)
    (hP : ∀ b ∈ P, ¬ cleanupLE a b) (hQ : ∀ b ∈ Q.head?, cleanupLE a b) :
    List.orderedInsert cleanupLE a (P ++ Q) = P ++ a :: Q := by
  induction P with
  | nil =>
    cases Q with
    | nil => simp [List.orderedInsert]
    | cons q t =>
      have hq := hQ q (by simp)
      simp [List.orderedInsert, hq]
  | cons p P ih =>
    have hp := hP p (by simp)
    simp only [List.cons_append, List.orderedInsert, if_neg hp]
    rw [show P.append Q = P ++ Q from rfl, ih (fun b hb => hP b (by simp [hb]))]

theorem cleanupOrder_decomposition (l : List CleanupItem) :
    cleanupOrder l = priFilter 0 l ++ priFilter 1 l ++ priFilter 2 l ++ priFilter 3 l := by
  induction l with
  | nil => rfl
  | cons a l ih =>
    show List.orderedInsert cleanupLE a (cleanupOrder l) = _
    rw [ih]
    rcases cleanupPriority_cases a.itemType with h | h | h | h
    · rw [show priFilter 0 l ++ priFilter 1 l ++ priFilter 2 l ++ priFilter 3 l =
        [] ++ (priFilter 0 l ++ priFilter 1 l ++ priFilter 2 l ++ priFilter 3 l) from rfl]
      rw [orderedInsert_append a [] _ (by simp)]
      · simp [priFilter, List.filter, h]
      · intro b hb
        simp [cleanupLE, h]
    · rw [show priFilter 0 l ++ priFilter 1 l ++ priFilter 2 l ++ priFilter 3 l =
        priFilter 0 l ++ (priFilter 1 l ++ priFilter 2 l ++ priFilter 3 l) by simp]
      rw [orderedInsert_append a _ _]
      · simp [priFilter, List.filter, h]
      · intro b hb
        have := mem_priFilter hb
        simp [cleanupLE, h, this]
      · intro b hb
        have hb' : b ∈ priFilter 1 l ++ priFilter 2 l ++ priFilter 3 l := List.mem_of_mem_head? hb
        simp only [List.mem_append] at hb'
        rcases hb' with (hb' | hb') | hb'
        · simp [cleanupLE, h, mem_priFilter hb']
        · simp [cleanupLE, h, mem_priFilter hb']
        · simp [cleanupLE, h, mem_priFilter hb']
    · rw [show priFilter 0 l ++ priFilter 1 l ++ priFilter 2 l ++ priFilter 3 l =
        (priFilter 0 l ++ priFilter 1 l) ++ (priFilter 2 l ++ priFilter 3 l) by simp]
      rw [orderedInsert_append a _ _]
      · simp [priFilter, List.filter, h]
      · intro b hb
        simp only [List.mem_append] at hb
        rcases hb with hb | hb
        · simp [cleanupLE, h, mem_priFilter hb]
        · simp [cleanupLE, h, mem_priFilter hb]
      · intro b hb
        have hb' : b ∈ priFilter 2 l ++ priFilter 3 l := List.mem_of_mem_head? hb
        simp only [List.mem_append] at hb'
        rcases hb' with hb' | hb'
        · simp [cleanupLE, h, mem_priFilter hb']
        · simp [cleanupLE, h, mem_priFilter hb']
    · rw [show priFilter 0 l ++ priFilter 1 l ++ priFilter 2 l ++ priFilter 3 l =
        (priFilter 0 l ++ priFilter 1 l ++ priFilter 2 l) ++ priFilter 3 l by simp]
      rw [orderedInsert_append a _ _]
      · simp [priFilter, List.filter, h]
      · intro b hb
        simp only [List.mem_append] at hb
        rcases hb with (hb | hb) | hb
        · simp [cleanupLE, h, mem_priFilter hb]
        · simp [cleanupLE, h, mem_priFilter hb]
        · simp [cleanupLE, h, mem_priFilter hb]
      · intro b hb
        have hb' : b ∈ priFilter 3 l := List.mem_of_mem_head? hb
        simp [cleanupLE, h, mem_priFilter hb']

end S3Spec

namespace S3Spec

theorem priFilter_zero (l : List CleanupItem) :
    priFilter 0 l = l.filter (fun it => it.itemType == "object") := by
  apply List.filter_congr
  intro it _
  by_cases h0 : it.itemType = "object"
  · simp [cleanupPriority, h0]
  · by_cases h1 : it.itemType = "multipart_upload"
    · simp [cleanupPriority, h0, h1]
    · by_cases h2 : it.itemType = "bucket" <;> simp [cleanupPriority, h0, h1, h2]

theorem priFilter_one (l : List CleanupItem) :
    priFilter 1 l = l.filter (fun it => it.itemType == "multipart_upload") := by
  apply List.filter_congr
  intro it _
  by_cases h0 : it.itemType = "object"
  · simp [cleanupPriority, h0]
  · by_cases h1 : it.itemType = "multipart_upload"
    · simp [cleanupPriority, h0, h1]
    · by_cases h2 : it.itemType = "bucket" <;> simp [cleanupPriority, h0, h1, h2]

theorem priFilter_two (l : List CleanupItem) :
    priFilter 2 l = l.filter (fun it => it.itemType == "bucket") := by
  apply List.filter_congr
  intro it _
  by_cases h0 : it.itemType = "object"
  · simp [cleanupPriority, h0]
  · by_cases h1 : it.itemType = "multipart_upload"
    · simp [cleanupPriority, h0, h1]
    · by_cases h2 : it.itemType = "bucket" <;> simp [cleanupPriority, h0, h1, h2]

theorem deleteObjectsEvents_shape (gw : Gateway) (b : String) (objs : List ObjEntry) :
    ∀ ev ∈ deleteObjectsEvents gw b objs,
      ∃ k ok, ev = Event.call (.deleteObject (some b) k none) ok := by
  induction objs with
  | nil => simp [deleteObjectsEvents]
  | cons o rest ih =>
    intro ev hev
    unfold deleteObjectsEvents at hev
    cases h : gw.delete_object (some b) o.key none with
    | ok v =>
      rw [h] at hev
      rcases List.mem_cons.mp hev with h1 | h1
      · exact ⟨o.key, true, h1⟩
      · exact ih ev h1
    | error e =>
      rw [h] at hev
      simp at hev
      exact ⟨o.key, false, hev⟩

end S3Spec

namespace S3Spec

/-- C5: for any mixed batch of Object, MultipartUpload, and Bucket items in a
category's cleanup registry, the cleanup pass processes all object items
first, then all multipart-upload items, then all bucket items (unknown types
last); its gateway-call trace is the concatenation of the per-item teardown
attempts in exactly that order; and a bucket item's teardown performs the
best-effort listing (and per-object deletions) of remaining objects before
ending with the `delete_bucket` attempt. -/
theorem cleanup_drain_order (gw : Gateway) (s : CatState) (item : CleanupItem)
    (hitem : item.itemType = "bucket") :
    cleanupOrder s.cleanup_items =
        s.cleanup_items.filter (fun it => it.itemType == "object") ++
        s.cleanup_items.filter (fun it => it.itemType == "multipart_upload") ++
        s.cleanup_items.filter (fun it => it.itemType == "bucket") ++
        priFilter 3 s.cleanup_items ∧
    (cleanupRun gw s).2.events =
      s.events ++ ((cleanupOrder s.cleanup_items).map (cleanupItemEvents gw)).flatten ∧
    (∃ listAndDeletes ok,
        cleanupItemEvents gw item =
          listAndDeletes ++ [Event.call (.deleteBucket item.identifier) ok] ∧
        (listAndDeletes.head? = some (Event.call (.listObjectsV2 item.identifier none) true) ∨
         listAndDeletes = [Event.call (.listObjectsV2 item.identifier none) false]) ∧
        ∀ ev ∈ listAndDeletes.tail,
          ∃ k okk, ev = Event.call (.deleteObject (some item.identifier) k none) okk) := by
  refine ⟨?_, ?_, ?_⟩
  · rw [cleanupOrder_decomposition, priFilter_zero, priFilter_one, priFilter_two]
  · rw [cleanupRun_state]
  · unfold cleanupItemEvents bucketTeardownEvents
    rw [if_pos hitem]
    cases hl : gw.list_objects_v2 item.identifier none with
    | ok resp =>
      cases hc : resp.contents with
      | some objs =>
        refine ⟨Event.call (.listObjectsV2 item.identifier none) true ::
          deleteObjectsEvents gw item.identifier objs,
          (gw.delete_bucket item.identifier).isOk, by simp [hc], Or.inl rfl, ?_⟩
        intro ev hev
        exact deleteObjectsEvents_shape gw item.identifier objs ev (by simpa using hev)
      | none =>
        exact ⟨[Event.call (.listObjectsV2 item.identifier none) true],
          (gw.delete_bucket item.identifier).isOk, by simp [hc],
          Or.inl rfl, by simp⟩
    | error e =>
      exact ⟨[Event.call (.listObjectsV2 item.identifier none) false],
        (gw.delete_bucket item.identifier).isOk, by simp,
        Or.inr rfl, by simp⟩

theorem cleanupRun_of_empty (gw : Gateway) (s : CatState) (h : s.cleanup_items = []) :
    cleanupRun gw s = ([], s) := by
  unfold cleanupRun
  rw [h]
  show (let p := cleanupProcess gw (cleanupOrder []) s; (p.1, { p.2 with cleanup_items := [] })) = ([], s)
  have hord : cleanupOrder ([] : List CleanupItem) = [] := rfl
  rw [hord]
  simp only [cleanupProcess]
  cases s
  simp_all

/-- C6: one cleanup pass always leaves the registry empty, however many
individual teardowns failed; running cleanup again immediately therefore
collects no errors, performs no gateway calls, and leaves the state
untouched (drain on an empty registry is a no-op). -/
theorem cleanup_clears_registry_and_second_pass_noop (gw : Gateway) (s : CatState) :
    (cleanupRun gw s).2.cleanup_items = [] ∧
    cleanupRun gw ((cleanupRun gw s).2) = ([], (cleanupRun gw s).2) := by
  have h : (cleanupRun gw s).2.cleanup_items = [] := by rw [cleanupRun_state]
  exact ⟨h, cleanupRun_of_empty gw _ h⟩

end S3Spec

namespace S3Spec


/-- C9: the run summary's totals are the sums of the per-category values and
the overall success rate is passed/total as a percentage, defined as 0 when
the total is 0; in particular categories (5 total, 4 passed) and (3 total,
3 passed) aggregate to totals (8, 7) with overall rate 87.5%. -/
theorem c9_aggregate_sums_and_rate :
    (∀ rs : List (String × CategorySummary),
      (CheckRunner.aggregate rs).total_checks = (rs.map (fun p => p.2.total_checks)).sum ∧
      (CheckRunner.aggregate rs).total_passed = (rs.map (fun p => p.2.passed)).sum ∧
      (CheckRunner.aggregate rs).total_failed = (rs.map (fun p => p.2.failed)).sum ∧
      (CheckRunner.aggregate rs).overall_success_rate =
        (if (rs.map (fun p => p.2.total_checks)).sum > 0
         then ((((rs.map (fun p => p.2.passed)).sum : Nat) : ℚ) /
              (((rs.map (fun p => p.2.total_checks)).sum : Nat) : ℚ)) * 100
         else 0)) ∧
    (CheckRunner.aggregate [("cat1", exCat1), ("cat2", exCat2)]).total_checks = 8 ∧
    (CheckRunner.aggregate [("cat1", exCat1), ("cat2", exCat2)]).total_passed = 7 ∧
    (CheckRunner.aggregate [("cat1", exCat1), ("cat2", exCat2)]).overall_success_rate = 87.5 ∧
    (CheckRunner.aggregate ([] : List (String × CategorySummary))).overall_success_rate = 0 := by
  refine ⟨fun rs => ⟨rfl, rfl, rfl, rfl⟩, ?_, ?_, ?_, ?_⟩
  · rfl
  · rfl
  · show (if (8 : Nat) > 0 then ((7 : Nat) : ℚ) / ((8 : Nat) : ℚ) * 100 else 0) = 87.5
    norm_num
  · rfl

/-- C7: the orchestrator's run loop always completes and records one entry
per selected category; a category whose run_checks() raises is recorded as a
zero-result failed category (0 total, 0 passed, 0 failed, empty results,
error message attached) and the remaining categories still execute. -/
theorem c7_runner_error_isolation (gw : Gateway) (cfg : Config) (cats : List Category) :
    (CheckRunner.run_checks gw cfg cats).results.length = cats.length ∧
    (CheckRunner.run_checks gw cfg cats).total_categories = cats.length ∧
    (CheckRunner.run_checks gw cfg cats).executed_checks = cats.map (fun c => c.name) ∧
    ∀ cat ∈ cats, ∀ e s1,
      cat.run gw cfg (catInit cat) = (.error e, s1) →
      (cat.name, errorCategorySummary cat.name e) ∈ (CheckRunner.run_checks gw cfg cats).results := by
  refine ⟨by simp [CheckRunner.run_checks, CheckRunner.aggregate],
          by simp [CheckRunner.run_checks, CheckRunner.aggregate],
          by simp [CheckRunner.run_checks, CheckRunner.aggregate], ?_⟩
  intro cat hcat e s1 hrun
  have hmem : (cat.name, (CheckRunner.runCategory gw cfg cat).1) ∈
      (cats.map fun c => (c.name, (CheckRunner.runCategory gw cfg c).1)) :=
    List.mem_map_of_mem _ hcat
  have hcase : (CheckRunner.runCategory gw cfg cat).1 = errorCategorySummary cat.name e := by
    unfold CheckRunner.runCategory
    rw [hrun]
  rw [hcase] at hmem
  simpa [CheckRunner.run_checks, CheckRunner.aggregate] using hmem

/-- C1 (amended): with cleanup globally enabled, the runner invokes the
category's cleanup pass whenever run_checks() returns normally — no matter
how many probes failed: the registry is drained empty and the drain alters
neither the instance's result ledger nor the recorded summary (teardown
failures are collected, not thrown).  But when run_checks() raises, the
runner records the zero-result error category and the cleanup pass is
skipped — the claim's "even when runChecks() raised" branch does not hold. -/
theorem c1_amended_cleanup_invocation (gw : Gateway) (cfg : Config) (cat : Category)
    (hce : (cfg.td.cleanup_enabled).getD true = true) :
    ((cat.run gw cfg (catInit cat)).1.isOk = true →
      CheckRunner.runCategory gw cfg cat =
        (get_summary ((cat.run gw cfg (catInit cat)).2),
         (cleanupRun gw ((cat.run gw cfg (catInit cat)).2)).2) ∧
      (CheckRunner.runCategory gw cfg cat).2.cleanup_items = [] ∧
      (CheckRunner.runCategory gw cfg cat).2.results =
        ((cat.run gw cfg (catInit cat)).2).results ∧
      (CheckRunner.runCategory gw cfg cat).1.results =
        ((cat.run gw cfg (catInit cat)).2).results) ∧
    (∀ e s1, cat.run gw cfg (catInit cat) = (.error e, s1) →
      CheckRunner.runCategory gw cfg cat = (errorCategorySummary cat.name e, s1)) := by
  constructor
  · intro hok
    rcases hrun : cat.run gw cfg (catInit cat) with ⟨x, s1⟩
    cases x with
    | ok a =>
      have hcat : CheckRunner.runCategory gw cfg cat = (get_summary s1, (cleanupRun gw s1).2) := by
        unfold CheckRunner.runCategory
        rw [hrun]
        simp [hce]
      refine ⟨by rw [hcat], ?_, ?_, ?_⟩
      · rw [hcat]
        show (cleanupRun gw s1).2.cleanup_items = []
        rw [cleanupRun_state]
      · rw [hcat]
        show (cleanupRun gw s1).2.results = s1.results
        rw [cleanupRun_state]
      · rw [hcat]
        show (get_summary s1).results = s1.results
        simp [get_summary]
    | error e =>
      rw [hrun] at hok
      simp [Except.isOk, Except.toBool] at hok
  · intro e s1 hrun
    unfold CheckRunner.runCategory
    rw [hrun]

end S3Spec

namespace S3Spec

set_option maxRecDepth 8000

/-- C1 is false as stated: with cleanup enabled, `ObjectChecks` under
`gwStray` raises out of `run_checks()` after registering five resources;
the runner records the error category, the cleanup pass is never invoked,
the five registered resources stay queued, and no teardown call of any
kind is attempted. -/
theorem c1_counterexample :
    (cfgTiny.td.cleanup_enabled).getD true = true ∧
    (CheckRunner.runCategory gwStray cfgTiny ObjectChecks.category).1 =
      errorCategorySummary "objects" (.stray "connection reset") ∧
    (CheckRunner.runCategory gwStray cfgTiny ObjectChecks.category).2.cleanup_items.length = 5 ∧
    ((CheckRunner.runCategory gwStray cfgTiny ObjectChecks.category).2.events.filter
      (fun ev =>
        match ev with
        | .call (.deleteObject _ _ _) _ => true
        | .call (.deleteBucket _) _ => true
        | .call (.abortMultipartUpload _ _ _) _ => true
        | _ => false)) = [] := by
  decide

theorem c1_witness :
    CheckRunner.runCategory gwInvalid403 cfgTiny BucketChecks.category =
      (get_summary ((BucketChecks.category.run gwInvalid403 cfgTiny (catInit BucketChecks.category)).2),
       (cleanupRun gwInvalid403
         ((BucketChecks.category.run gwInvalid403 cfgTiny (catInit BucketChecks.category)).2)).2) ∧
    (CheckRunner.runCategory gwInvalid403 cfgTiny BucketChecks.category).2.cleanup_items = [] ∧
    (CheckRunner.runCategory gwInvalid403 cfgTiny BucketChecks.category).2.results =
      ((BucketChecks.category.run gwInvalid403 cfgTiny (catInit BucketChecks.category)).2).results ∧
    (CheckRunner.runCategory gwInvalid403 cfgTiny BucketChecks.category).1.results =
      ((BucketChecks.category.run gwInvalid403 cfgTiny (catInit BucketChecks.category)).2).results :=
  (c1_amended_cleanup_invocation gwInvalid403 cfgTiny BucketChecks.category (by decide)).1 (by decide)

end S3Spec

namespace S3Spec

set_option maxRecDepth 8000


theorem c7_witness :
    ("objects", errorCategorySummary "objects" (.stray "connection reset")) ∈
      (CheckRunner.run_checks gwStray cfgTiny witnessCats).results ∧
    (CheckRunner.run_checks gwStray cfgTiny witnessCats).results.length = 2 := by
  have h := c7_runner_error_isolation gwStray cfgTiny witnessCats
  refine ⟨?_, h.1⟩
  have h1 : (ObjectChecks.category.run gwStray cfgTiny (catInit ObjectChecks.category)).1 =
      .error (.stray "connection reset") := by decide
  apply h.2.2.2 ObjectChecks.category (by simp [witnessCats]) (.stray "connection reset")
    ((ObjectChecks.category.run gwStray cfgTiny (catInit ObjectChecks.category)).2)
  rw [← h1]

/-- C4 is false as stated: `BucketChecks.run_checks` creates no scoped test
bucket; under a gateway where every bucket creation fails it does not
return early with a single failing result — all six probes still run,
producing nine results and six separate `create_bucket` attempts. -/
theorem c4_counterexample :
    (BucketChecks.run_checks gwAllFail cfgTiny bktInit).1.isOk = true ∧
    (BucketChecks.run_checks gwAllFail cfgTiny bktInit).2.results.length = 9 ∧
    ((BucketChecks.run_checks gwAllFail cfgTiny bktInit).2.results.map (fun r => r.name)) =
      ["bucket_creation", "bucket_creation_invalid_name", "bucket_listing",
       "bucket_head_existing", "bucket_head_nonexistent", "bucket_versioning",
       "bucket_tagging", "bucket_deletion_empty", "bucket_deletion_nonexistent"] ∧
    (callsCB (BucketChecks.run_checks gwAllFail cfgTiny bktInit).2.events).length = 6 := by
  decide

/-- C2 is false as stated: a stray (non-`S3ClientError`) exception from a
probe — here a stream failure while reading a downloaded body in probe #2 —
is not caught by the category runner: it propagates out of `run_checks`,
and probes #3..#7 never execute and produce no results. -/
theorem c2_counterexample :
    (ObjectChecks.run_checks gwStray cfgTiny objInit).1 =
      .error (.stray "connection reset") ∧
    ((ObjectChecks.run_checks gwStray cfgTiny objInit).2.results.map (fun r => r.name)) =
      ["object_upload_small", "object_upload_medium", "object_upload_with_metadata"] := by
  decide

/-- C3 is false as stated: `_check_metadata_copy_behavior` registers the
copy destination for cleanup immediately after the source upload, before
`copy_object` is attempted; when the copy then fails, the registry holds
an item whose resource was never created. -/
theorem c3_counterexample :
    (MetadataChecks.check_metadata_copy_behavior gwCopyFail cfgTiny metaInit).2.events =
      [Event.call (.putObject "mb" "copy-source-metadata-0") true,
       Event.registered { itemType := "object", identifier := "copy-source-metadata-0",
                          bucket := some "mb" },
       Event.registered { itemType := "object", identifier := "copy-dest-metadata-1",
                          bucket := some "mb" },
       Event.call (.copyObject "mb" "copy-dest-metadata-1" "mb" "copy-source-metadata-0") false] ∧
    regJustifiedB []
      (MetadataChecks.check_metadata_copy_behavior gwCopyFail cfgTiny metaInit).2.events = false ∧
    { itemType := "object", identifier := "copy-dest-metadata-1", bucket := some "mb",
      version_id := none, upload_id := none } ∈
      (MetadataChecks.check_metadata_copy_behavior gwCopyFail cfgTiny metaInit).2.cleanup_items := by
  decide

end S3Spec

namespace S3Spec

theorem noS3_pure {α : Type} (a : α) : NoS3 (CatM.pure a) := by
  intro s e
  simp [CatM.pure]

theorem noS3_pure' {α : Type} (a : α) : NoS3 (pure a : CatM α) := noS3_pure a

theorem noS3_bind {α β : Type} {x : CatM α} {f : α → CatM β}
    (hx : NoS3 x) (hf : ∀ a, NoS3 (f a)) : NoS3 (x >>= f) := by
  intro s e
  show (CatM.bind x f s).1 ≠ _
  unfold CatM.bind
  cases hxs : x s with
  | mk r s1 =>
    cases r with
    | ok a => exact hf a s1 e
    | error err =>
      intro hcon
      have : err = Exn.s3 e := by simpa using hcon
      exact hx s e (by rw [hxs, this])

theorem noS3_catchS3 {α : Type} {m : CatM α} {h : S3ClientError → CatM α}
    (hh : ∀ e, NoS3 (h e)) : NoS3 (catchS3 m h) := by
  intro s e
  unfold catchS3
  cases hms : m s with
  | mk r s1 =>
    cases r with
    | ok a => simp
    | error err =>
      cases err with
      | s3 e2 => exact hh e2 s1 e
      | stray msg => simp

theorem noS3_ite {α : Type} {c : Prop} [Decidable c] {x y : CatM α}
    (hx : NoS3 x) (hy : NoS3 y) : NoS3 (if c then x else y) := by
  by_cases h : c
  · simpa [h] using hx
  · simpa [h] using hy

theorem noS3_add_result (name : String) (success : Bool) (message : String) :
    NoS3 (add_result name success message) := by
  intro s e
  simp [add_result]

theorem noS3_add_cleanup_item (item : CleanupItem) : NoS3 (add_cleanup_item item) := by
  intro s e
  simp [add_cleanup_item]

theorem noS3_generate_unique_name (p : String) : NoS3 (generate_unique_name p) := by
  intro s e
  simp [generate_unique_name]

theorem noS3_getS : NoS3 getS := by
  intro s e
  simp [getS]

theorem noS3_modifyS (f : CatState → CatState) : NoS3 (modifyS f) := by
  intro s e
  simp [modifyS]

theorem noS3_readBody (r : GetObjectResp) : NoS3 (readBody r) := by
  intro s e
  unfold readBody
  cases r.body with
  | ok d => simp [Pure.pure, CatM.pure]
  | error msg => simp [throwExn]


end S3Spec

namespace S3Spec

set_option maxRecDepth 4000

theorem noS3_resUnit (n : String) (b : Bool) (m : String) :
    NoS3 ((add_result n b m) >>= fun _ => (pure () : CatM Unit)) := by
  apply noS3_bind
  · exact noS3_add_result _ _ _
  · intro _
    exact noS3_pure' _

theorem noS3_upload (gw : Gateway) (cfg : Config) :
    NoS3 (ObjectChecks.check_object_upload gw cfg) := by
  unfold ObjectChecks.check_object_upload
  apply noS3_bind noS3_getS
  intro st
  apply noS3_bind (noS3_generate_unique_name _)
  intro k1
  apply noS3_bind (noS3_catchS3 (fun e => noS3_resUnit _ _ _))
  intro _
  apply noS3_bind (noS3_generate_unique_name _)
  intro k2
  apply noS3_bind (noS3_catchS3 (fun e => noS3_resUnit _ _ _))
  intro _
  apply noS3_bind (noS3_generate_unique_name _)
  intro k3
  exact noS3_catchS3 (fun e => noS3_resUnit _ _ _)

theorem noS3_download_roundtrip (gw : Gateway) (cfg : Config) (k : String) :
    NoS3 (ObjectChecks.check_object_download_roundtrip gw cfg k) := by
  unfold ObjectChecks.check_object_download_roundtrip
  apply noS3_bind noS3_getS
  intro st
  exact noS3_catchS3 (fun e => noS3_resUnit _ _ _)

theorem noS3_download_missing (gw : Gateway) (k : String) :
    NoS3 (ObjectChecks.check_object_download_missing gw k) := by
  unfold ObjectChecks.check_object_download_missing
  apply noS3_bind noS3_getS
  intro st
  apply noS3_catchS3
  intro e
  exact noS3_ite (noS3_resUnit _ _ _) (noS3_resUnit _ _ _)

theorem noS3_download (gw : Gateway) (cfg : Config) :
    NoS3 (ObjectChecks.check_object_download gw cfg) := by
  unfold ObjectChecks.check_object_download
  apply noS3_bind (noS3_generate_unique_name _)
  intro k1
  apply noS3_bind (noS3_download_roundtrip gw cfg k1)
  intro _
  apply noS3_bind (noS3_generate_unique_name _)
  intro k2
  exact noS3_download_missing gw k2

theorem noS3_head_operation (gw : Gateway) (cfg : Config) :
    NoS3 (ObjectChecks.check_object_head_operation gw cfg) := by
  unfold ObjectChecks.check_object_head_operation
  apply noS3_bind noS3_getS
  intro st
  apply noS3_bind (noS3_generate_unique_name _)
  intro k
  exact noS3_catchS3 (fun e => noS3_resUnit _ _ _)

theorem noS3_copy (gw : Gateway) (cfg : Config) :
    NoS3 (ObjectChecks.check_object_copy gw cfg) := by
  unfold ObjectChecks.check_object_copy
  apply noS3_bind noS3_getS
  intro st
  apply noS3_bind (noS3_generate_unique_name _)
  intro k1
  apply noS3_bind (noS3_generate_unique_name _)
  intro k2
  exact noS3_catchS3 (fun e => noS3_resUnit _ _ _)

theorem noS3_listing (gw : Gateway) (cfg : Config) :
    NoS3 (ObjectChecks.check_object_listing gw cfg) := by
  unfold ObjectChecks.check_object_listing
  apply noS3_bind noS3_getS
  intro st
  apply noS3_bind (noS3_generate_unique_name _)
  intro k
  exact noS3_catchS3 (fun e => noS3_resUnit _ _ _)

theorem noS3_object_metadata (gw : Gateway) (cfg : Config) :
    NoS3 (ObjectChecks.check_object_metadata gw cfg) := by
  unfold ObjectChecks.check_object_metadata
  apply noS3_bind noS3_getS
  intro st
  apply noS3_bind (noS3_generate_unique_name _)
  intro k
  exact noS3_catchS3 (fun e => noS3_resUnit _ _ _)

theorem noS3_deletion (gw : Gateway) (cfg : Config) :
    NoS3 (ObjectChecks.check_object_deletion gw cfg) := by
  unfold ObjectChecks.check_object_deletion
  apply noS3_bind noS3_getS
  intro st
  apply noS3_bind (noS3_generate_unique_name _)
  intro k1
  apply noS3_bind (noS3_catchS3 (fun e => noS3_resUnit _ _ _))
  intro _
  apply noS3_bind (noS3_generate_unique_name _)
  intro k2
  apply noS3_catchS3
  intro e
  exact noS3_ite (noS3_resUnit _ _ _) (noS3_resUnit _ _ _)

end S3Spec

namespace S3Spec

theorem callsCB_append (l1 l2 : List Event) :
    callsCB (l1 ++ l2) = callsCB l1 ++ callsCB l2 :=
  List.filterMap_append l1 l2 _

theorem callsCB_call (c : S3Call) (ok : Bool) (hc : isCreateBucketCall c = false) :
    callsCB [Event.call c ok] = [] := by
  cases c <;> simp_all [callsCB, isCreateBucketCall]

theorem callsCB_registered (item : CleanupItem) :
    callsCB [Event.registered item] = [] := by
  simp [callsCB]

theorem regJustifiedB_append (l1 : List Event) :
    ∀ (seen l2 : List Event),
      regJustifiedB seen (l1 ++ l2) =
        (regJustifiedB seen l1 && regJustifiedB (seen ++ l1) l2) := by
  induction l1 with
  | nil => intro seen l2; simp [regJustifiedB]
  | cons ev t ih =>
    intro seen l2
    simp only [List.cons_append, regJustifiedB]
    rw [show t.append l2 = t ++ l2 from rfl, ih,
      show seen ++ ev :: t = (seen ++ [ev]) ++ t by simp, Bool.and_assoc]

theorem regJustifiedB_call (seen : List Event) (c : S3Call) (ok : Bool) :
    regJustifiedB seen [Event.call c ok] = true := by
  simp [regJustifiedB]

theorem seenCreates_append (seen l : List Event) (it : CleanupItem) :
    seenCreates (seen ++ l) it = (seenCreates seen it || seenCreates l it) := by
  simp [seenCreates, List.any_append]

/- NoNewCB composition and primitive lemmas. -/

theorem noNewCB_bind {α β : Type} {x : CatM α} {f : α → CatM β}
    (hx : NoNewCB x) (hf : ∀ a, NoNewCB (f a)) : NoNewCB (x >>= f) := by
  intro s
  show (callsCB ((CatM.bind x f s).2).events) = _
  unfold CatM.bind
  cases hxs : x s with
  | mk r s1 =>
    have h1 : callsCB s1.events = callsCB s.events := by
      have := hx s
      rw [hxs] at this
      exact this
    cases r with
    | ok a => simpa [h1] using (hf a s1).trans h1
    | error e => simpa using h1

theorem noNewCB_catchS3 {α : Type} {m : CatM α} {h : S3ClientError → CatM α}
    (hm : NoNewCB m) (hh : ∀ e, NoNewCB (h e)) : NoNewCB (catchS3 m h) := by
  intro s
  unfold catchS3
  cases hms : m s with
  | mk r s1 =>
    have h1 : callsCB s1.events = callsCB s.events := by
      have := hm s
      rw [hms] at this
      exact this
    cases r with
    | ok a => simpa using h1
    | error err =>
      cases err with
      | s3 e => simpa using (hh e s1).trans h1
      | stray msg => simpa using h1

theorem noNewCB_ite {α : Type} {c : Prop} [Decidable c] {x y : CatM α}
    (hx : NoNewCB x) (hy : NoNewCB y) : NoNewCB (if c then x else y) := by
  by_cases h : c
  · simpa [h] using hx
  · simpa [h] using hy

theorem noNewCB_pure {α : Type} (a : α) : NoNewCB (CatM.pure a) := by
  intro s
  simp [CatM.pure]

theorem noNewCB_pure' {α : Type} (a : α) : NoNewCB (pure a : CatM α) := noNewCB_pure a

theorem noNewCB_getS : NoNewCB getS := by
  intro s
  simp [getS]

theorem noNewCB_generate_unique_name (p : String) : NoNewCB (generate_unique_name p) := by
  intro s
  simp [generate_unique_name]

theorem noNewCB_add_result (n : String) (b : Bool) (m : String) :
    NoNewCB (add_result n b m) := by
  intro s
  simp [add_result]

theorem noNewCB_add_cleanup_item (item : CleanupItem) : NoNewCB (add_cleanup_item item) := by
  intro s
  simp [add_cleanup_item, callsCB_append, callsCB_registered]

theorem noNewCB_readBody (r : GetObjectResp) : NoNewCB (readBody r) := by
  intro s
  unfold readBody
  cases r.body with
  | ok d => simp [Pure.pure, CatM.pure]
  | error msg => simp [throwExn]

theorem noNewCB_gwCall {α : Type} (c : S3Call) (r : Except S3ClientError α)
    (hc : isCreateBucketCall c = false) : NoNewCB (gwCall c r) := by
  intro s
  unfold gwCall
  cases r with
  | ok a => simp [CatState.logCall, callsCB_append, callsCB_call c true hc]
  | error e => simp [CatState.logCall, callsCB_append, callsCB_call c false hc]

theorem noNewCB_resUnit (n : String) (b : Bool) (m : String) :
    NoNewCB ((add_result n b m) >>= fun _ => (pure () : CatM Unit)) :=
  noNewCB_bind (noNewCB_add_result _ _ _) (fun _ => noNewCB_pure' _)

/- JustOK1 composition and primitive lemmas. -/

theorem justOK1_bind {α β : Type} {x : CatM α} {f : α → CatM β}
    (hx : JustOK1 x) (hf : ∀ a, JustOK1 (f a)) : JustOK1 (x >>= f) := by
  intro s seen h
  show regJustifiedB seen ((CatM.bind x f s).2).events = true
  unfold CatM.bind
  cases hxs : x s with
  | mk r s1 =>
    have h1 : regJustifiedB seen s1.events = true := by
      have := hx s seen h
      rw [hxs] at this
      exact this
    cases r with
    | ok a => exact hf a s1 seen h1
    | error e => simpa using h1

theorem justOK1_catchS3 {α : Type} {m : CatM α} {h : S3ClientError → CatM α}
    (hm : JustOK1 m) (hh : ∀ e, JustOK1 (h e)) : JustOK1 (catchS3 m h) := by
  intro s seen hj
  unfold catchS3
  cases hms : m s with
  | mk r s1 =>
    have h1 : regJustifiedB seen s1.events = true := by
      have := hm s seen hj
      rw [hms] at this
      exact this
    cases r with
    | ok a => simpa using h1
    | error err =>
      cases err with
      | s3 e => exact hh e s1 seen h1
      | stray msg => simpa using h1

theorem justOK1_ite {α : Type} {c : Prop} [Decidable c] {x y : CatM α}
    (hx : JustOK1 x) (hy : JustOK1 y) : JustOK1 (if c then x else y) := by
  by_cases h : c
  · simpa [h] using hx
  · simpa [h] using hy

theorem justOK1_pure {α : Type} (a : α) : JustOK1 (CatM.pure a) := by
  intro s seen h
  simpa [CatM.pure] using h

theorem justOK1_pure' {α : Type} (a : α) : JustOK1 (pure a : CatM α) := justOK1_pure a

theorem justOK1_getS : JustOK1 getS := by
  intro s seen h
  simpa [getS] using h

theorem justOK1_generate_unique_name (p : String) : JustOK1 (generate_unique_name p) := by
  intro s seen h
  simpa [generate_unique_name] using h

theorem justOK1_add_result (n : String) (b : Bool) (m : String) :
    JustOK1 (add_result n b m) := by
  intro s seen h
  simpa [add_result] using h

theorem justOK1_readBody (r : GetObjectResp) : JustOK1 (readBody r) := by
  intro s seen h
  unfold readBody
  cases r.body with
  | ok d => simpa [Pure.pure, CatM.pure] using h
  | error msg => simpa [throwExn] using h

theorem justOK1_gwCall {α : Type} (c : S3Call) (r : Except S3ClientError α) :
    JustOK1 (gwCall c r) := by
  intro s seen h
  unfold gwCall
  cases r with
  | ok a => simp [CatState.logCall, regJustifiedB_append, regJustifiedB_call, h]
  | error e => simp [CatState.logCall, regJustifiedB_append, regJustifiedB_call, h]

theorem justOK1_resUnit (n : String) (b : Bool) (m : String) :
    JustOK1 ((add_result n b m) >>= fun _ => (pure () : CatM Unit)) :=
  justOK1_bind (justOK1_add_result _ _ _) (fun _ => justOK1_pure' _)

theorem seenCreates_single_call (c : S3Call) (it : CleanupItem) :
    seenCreates [Event.call c true] it = createsB c it := by
  simp [seenCreates]

theorem regJustifiedB_registered (seen : List Event) (item : CleanupItem)
    (h : seenCreates seen item = true) :
    regJustifiedB seen [Event.registered item] = true := by
  simp [regJustifiedB, h]

theorem justOK1_gwCall_register {α β : Type} (c : S3Call) (r : Except S3ClientError α)
    (item : CleanupItem) (f : α → CatM β)
    (hc : createsB c item = true) (hf : ∀ a, JustOK1 (f a)) :
    JustOK1 ((gwCall c r) >>= fun a => (add_cleanup_item item) >>= fun _ => f a) := by
  intro s seen h
  show regJustifiedB seen (((CatM.bind (gwCall c r)
    (fun a => CatM.bind (add_cleanup_item item) (fun _ => f a))) s).2).events = true
  unfold CatM.bind gwCall add_cleanup_item
  cases r with
  | error e =>
    simp [CatState.logCall, regJustifiedB_append, regJustifiedB_call, h]
  | ok a =>
    have hseen : regJustifiedB seen
        ((s.events ++ [Event.call c true]) ++ [Event.registered item]) = true := by
      rw [regJustifiedB_append, regJustifiedB_append]
      have hcr : seenCreates ((seen ++ s.events) ++ [Event.call c true]) item = true := by
        rw [seenCreates_append, seenCreates_single_call, hc]
        simp
      simp [regJustifiedB_call, h, regJustifiedB_registered _ _ (by simpa [List.append_assoc] using hcr)]
    have := hf a { s with
      cleanup_items := s.cleanup_items ++ [item],
      events := (s.events ++ [Event.call c true]) ++ [Event.registered item] }
    simp only [CatState.logCall] at *
    simpa [List.append_assoc] using this seen (by simpa [List.append_assoc] using hseen)

end S3Spec

namespace S3Spec

theorem justOK1_modifyS (f : CatState → CatState) (hf : ∀ s, (f s).events = s.events) :
    JustOK1 (modifyS f) := by
  intro s seen h
  simpa [modifyS, hf s] using h

theorem noNewCB_modifyS (f : CatState → CatState) (hf : ∀ s, (f s).events = s.events) :
    NoNewCB (modifyS f) := by
  intro s
  simp [modifyS, hf s]

end S3Spec

namespace S3Spec

set_option maxRecDepth 4000

theorem justOK1_upload (gw : Gateway) (cfg : Config) :
    JustOK1 (ObjectChecks.check_object_upload gw cfg) := by
  unfold ObjectChecks.check_object_upload
  apply justOK1_bind justOK1_getS
  intro st
  apply justOK1_bind (justOK1_generate_unique_name _)
  intro k1
  apply justOK1_bind
  · apply justOK1_catchS3
    · apply justOK1_gwCall_register _ _ _ _ (by simp [createsB])
      intro response
      exact justOK1_ite (justOK1_resUnit _ _ _) (justOK1_resUnit _ _ _)
    · intro e
      exact justOK1_resUnit _ _ _
  · intro _
    apply justOK1_bind (justOK1_generate_unique_name _)
    intro k2
    apply justOK1_bind
    · apply justOK1_catchS3
      · apply justOK1_gwCall_register _ _ _ _ (by simp [createsB])
        intro response
        exact justOK1_ite (justOK1_resUnit _ _ _) (justOK1_resUnit _ _ _)
      · intro e
        exact justOK1_resUnit _ _ _
    · intro _
      apply justOK1_bind (justOK1_generate_unique_name _)
      intro k3
      apply justOK1_catchS3
      · apply justOK1_gwCall_register _ _ _ _ (by simp [createsB])
        intro response
        exact justOK1_ite (justOK1_resUnit _ _ _) (justOK1_resUnit _ _ _)
      · intro e
        exact justOK1_resUnit _ _ _

end S3Spec

namespace S3Spec

theorem justOK1_download_roundtrip (gw : Gateway) (cfg : Config) (k : String) :
    JustOK1 (ObjectChecks.check_object_download_roundtrip gw cfg k) := by
  unfold ObjectChecks.check_object_download_roundtrip
  apply justOK1_bind justOK1_getS
  intro st
  apply justOK1_catchS3
  · apply justOK1_gwCall_register _ _ _ _ (by simp [createsB])
    intro _
    apply justOK1_bind (justOK1_gwCall _ _)
    intro response
    apply justOK1_bind (justOK1_readBody _)
    intro d
    exact justOK1_ite (justOK1_resUnit _ _ _) (justOK1_resUnit _ _ _)
  · intro e
    exact justOK1_resUnit _ _ _

theorem justOK1_download_missing (gw : Gateway) (k : String) :
    JustOK1 (ObjectChecks.check_object_download_missing gw k) := by
  unfold ObjectChecks.check_object_download_missing
  apply justOK1_bind justOK1_getS
  intro st
  apply justOK1_catchS3
  · apply justOK1_bind (justOK1_gwCall _ _)
    intro _
    exact justOK1_resUnit _ _ _
  · intro e
    exact justOK1_ite (justOK1_resUnit _ _ _) (justOK1_resUnit _ _ _)

theorem justOK1_download (gw : Gateway) (cfg : Config) :
    JustOK1 (ObjectChecks.check_object_download gw cfg) := by
  unfold ObjectChecks.check_object_download
  apply justOK1_bind (justOK1_generate_unique_name _)
  intro k1
  apply justOK1_bind (justOK1_download_roundtrip gw cfg k1)
  intro _
  apply justOK1_bind (justOK1_generate_unique_name _)
  intro k2
  exact justOK1_download_missing gw k2

theorem justOK1_head_operation (gw : Gateway) (cfg : Config) :
    JustOK1 (ObjectChecks.check_object_head_operation gw cfg) := by
  unfold ObjectChecks.check_object_head_operation
  apply justOK1_bind justOK1_getS
  intro st
  apply justOK1_bind (justOK1_generate_unique_name _)
  intro k
  apply justOK1_catchS3
  · apply justOK1_gwCall_register _ _ _ _ (by simp [createsB])
    intro put_response
    apply justOK1_bind (justOK1_gwCall _ _)
    intro response
    exact justOK1_ite (justOK1_resUnit _ _ _) (justOK1_resUnit _ _ _)
  · intro e
    exact justOK1_resUnit _ _ _

theorem justOK1_copy (gw : Gateway) (cfg : Config) :
    JustOK1 (ObjectChecks.check_object_copy gw cfg) := by
  unfold ObjectChecks.check_object_copy
  apply justOK1_bind justOK1_getS
  intro st
  apply justOK1_bind (justOK1_generate_unique_name _)
  intro k1
  apply justOK1_bind (justOK1_generate_unique_name _)
  intro k2
  apply justOK1_catchS3
  · apply justOK1_gwCall_register _ _ _ _ (by simp [createsB])
    intro _
    apply justOK1_gwCall_register _ _ _ _ (by simp [createsB])
    intro copy_response
    cases copy_response.copyObjectResult with
    | some cr =>
      apply justOK1_ite
      · apply justOK1_bind (justOK1_gwCall _ _)
        intro get_response
        apply justOK1_bind (justOK1_readBody _)
        intro copied
        exact justOK1_ite (justOK1_resUnit _ _ _) (justOK1_resUnit _ _ _)
      · exact justOK1_resUnit _ _ _
    | none => exact justOK1_resUnit _ _ _
  · intro e
    exact justOK1_resUnit _ _ _

theorem justOK1_listing (gw : Gateway) (cfg : Config) :
    JustOK1 (ObjectChecks.check_object_listing gw cfg) := by
  unfold ObjectChecks.check_object_listing
  apply justOK1_bind justOK1_getS
  intro st
  apply justOK1_bind (justOK1_generate_unique_name _)
  intro k
  apply justOK1_catchS3
  · apply justOK1_gwCall_register _ _ _ _ (by simp [createsB])
    intro _
    apply justOK1_gwCall_register _ _ _ _ (by simp [createsB])
    intro _
    apply justOK1_gwCall_register _ _ _ _ (by simp [createsB])
    intro _
    apply justOK1_bind (justOK1_gwCall _ _)
    intro response
    apply justOK1_bind
    · cases response.contents with
      | some contents => exact justOK1_ite (justOK1_resUnit _ _ _) (justOK1_resUnit _ _ _)
      | none => exact justOK1_resUnit _ _ _
    · intro _
      apply justOK1_bind (justOK1_gwCall _ _)
      intro response_v1
      cases response_v1.contents with
      | some contents => exact justOK1_ite (justOK1_resUnit _ _ _) (justOK1_resUnit _ _ _)
      | none => exact justOK1_resUnit _ _ _
  · intro e
    exact justOK1_resUnit _ _ _

theorem justOK1_object_metadata (gw : Gateway) (cfg : Config) :
    JustOK1 (ObjectChecks.check_object_metadata gw cfg) := by
  unfold ObjectChecks.check_object_metadata
  apply justOK1_bind justOK1_getS
  intro st
  apply justOK1_bind (justOK1_generate_unique_name _)
  intro k
  apply justOK1_catchS3
  · apply justOK1_gwCall_register _ _ _ _ (by simp [createsB])
    intro _
    apply justOK1_bind (justOK1_gwCall _ _)
    intro _
    apply justOK1_bind (justOK1_gwCall _ _)
    intro tag_response
    apply justOK1_ite
    · exact justOK1_ite (justOK1_resUnit _ _ _) (justOK1_resUnit _ _ _)
    · exact justOK1_resUnit _ _ _
  · intro e
    exact justOK1_resUnit _ _ _

theorem justOK1_deletion (gw : Gateway) (cfg : Config) :
    JustOK1 (ObjectChecks.check_object_deletion gw cfg) := by
  unfold ObjectChecks.check_object_deletion
  apply justOK1_bind justOK1_getS
  intro st
  apply justOK1_bind (justOK1_generate_unique_name _)
  intro k1
  apply justOK1_bind
  · apply justOK1_catchS3
    · apply justOK1_bind (justOK1_gwCall _ _)
      intro _
      apply justOK1_bind (justOK1_gwCall _ _)
      intro _
      apply justOK1_catchS3
      · apply justOK1_bind (justOK1_gwCall _ _)
        intro _
        exact justOK1_resUnit _ _ _
      · intro head_error
        exact justOK1_ite (justOK1_resUnit _ _ _) (justOK1_resUnit _ _ _)
    · intro e
      exact justOK1_resUnit _ _ _
  · intro _
    apply justOK1_bind (justOK1_generate_unique_name _)
    intro k2
    apply justOK1_catchS3
    · apply justOK1_bind (justOK1_gwCall _ _)
      intro _
      exact justOK1_resUnit _ _ _
    · intro e
      exact justOK1_ite (justOK1_resUnit _ _ _) (justOK1_resUnit _ _ _)

theorem justOK1_run_probes (gw : Gateway) (cfg : Config) :
    JustOK1 (ObjectChecks.run_probes gw cfg) := by
  unfold ObjectChecks.run_probes
  apply justOK1_bind (justOK1_upload gw cfg)
  intro _
  apply justOK1_bind (justOK1_download gw cfg)
  intro _
  apply justOK1_bind (justOK1_head_operation gw cfg)
  intro _
  apply justOK1_bind (justOK1_copy gw cfg)
  intro _
  apply justOK1_bind (justOK1_listing gw cfg)
  intro _
  apply justOK1_bind (justOK1_object_metadata gw cfg)
  intro _
  exact justOK1_deletion gw cfg

theorem justOK1_object_run_checks (gw : Gateway) (cfg : Config) :
    JustOK1 (ObjectChecks.run_checks gw cfg) := by
  unfold ObjectChecks.run_checks
  apply justOK1_bind (justOK1_generate_unique_name _)
  intro tb
  apply justOK1_bind (justOK1_modifyS (fun s => { s with test_bucket := tb }) (fun s => rfl))
  intro _
  apply justOK1_bind
  · apply justOK1_catchS3
    · apply justOK1_gwCall_register _ _ _ _ (by simp [createsB])
      intro _
      exact justOK1_pure' _
    · intro e
      exact justOK1_bind (justOK1_add_result _ _ _) (fun _ => justOK1_pure' _)
  · intro created
    apply justOK1_ite
    · apply justOK1_bind (justOK1_run_probes gw cfg)
      intro _
      apply justOK1_bind justOK1_getS
      intro s
      exact justOK1_pure' _
    · apply justOK1_bind justOK1_getS
      intro s
      exact justOK1_pure' _

end S3Spec

namespace S3Spec

theorem noNewCB_upload (gw : Gateway) (cfg : Config) :
    NoNewCB (ObjectChecks.check_object_upload gw cfg) := by
  unfold ObjectChecks.check_object_upload
  apply noNewCB_bind noNewCB_getS
  intro st
  apply noNewCB_bind (noNewCB_generate_unique_name _)
  intro k1
  apply noNewCB_bind
  · apply noNewCB_catchS3
    · apply noNewCB_bind (noNewCB_gwCall _ _ (by rfl))
      intro response
      apply noNewCB_bind (noNewCB_add_cleanup_item _)
      intro _
      exact noNewCB_ite (noNewCB_resUnit _ _ _) (noNewCB_resUnit _ _ _)
    · intro e
      exact noNewCB_resUnit _ _ _
  · intro _
    apply noNewCB_bind (noNewCB_generate_unique_name _)
    intro k2
    apply noNewCB_bind
    · apply noNewCB_catchS3
      · apply noNewCB_bind (noNewCB_gwCall _ _ (by rfl))
        intro response
        apply noNewCB_bind (noNewCB_add_cleanup_item _)
        intro _
        exact noNewCB_ite (noNewCB_resUnit _ _ _) (noNewCB_resUnit _ _ _)
      · intro e
        exact noNewCB_resUnit _ _ _
    · intro _
      apply noNewCB_bind (noNewCB_generate_unique_name _)
      intro k3
      apply noNewCB_catchS3
      · apply noNewCB_bind (noNewCB_gwCall _ _ (by rfl))
        intro response
        apply noNewCB_bind (noNewCB_add_cleanup_item _)
        intro _
        exact noNewCB_ite (noNewCB_resUnit _ _ _) (noNewCB_resUnit _ _ _)
      · intro e
        exact noNewCB_resUnit _ _ _

theorem noNewCB_download_roundtrip (gw : Gateway) (cfg : Config) (k : String) :
    NoNewCB (ObjectChecks.check_object_download_roundtrip gw cfg k) := by
  unfold ObjectChecks.check_object_download_roundtrip
  apply noNewCB_bind noNewCB_getS
  intro st
  apply noNewCB_catchS3
  · apply noNewCB_bind (noNewCB_gwCall _ _ (by rfl))
    intro _
    apply noNewCB_bind (noNewCB_add_cleanup_item _)
    intro _
    apply noNewCB_bind (noNewCB_gwCall _ _ (by rfl))
    intro response
    apply noNewCB_bind (noNewCB_readBody _)
    intro d
    exact noNewCB_ite (noNewCB_resUnit _ _ _) (noNewCB_resUnit _ _ _)
  · intro e
    exact noNewCB_resUnit _ _ _

theorem noNewCB_download_missing (gw : Gateway) (k : String) :
    NoNewCB (ObjectChecks.check_object_download_missing gw k) := by
  unfold ObjectChecks.check_object_download_missing
  apply noNewCB_bind noNewCB_getS
  intro st
  apply noNewCB_catchS3
  · apply noNewCB_bind (noNewCB_gwCall _ _ (by rfl))
    intro _
    exact noNewCB_resUnit _ _ _
  · intro e
    exact noNewCB_ite (noNewCB_resUnit _ _ _) (noNewCB_resUnit _ _ _)

theorem noNewCB_download (gw : Gateway) (cfg : Config) :
    NoNewCB (ObjectChecks.check_object_download gw cfg) := by
  unfold ObjectChecks.check_object_download
  apply noNewCB_bind (noNewCB_generate_unique_name _)
  intro k1
  apply noNewCB_bind (noNewCB_download_roundtrip gw cfg k1)
  intro _
  apply noNewCB_bind (noNewCB_generate_unique_name _)
  intro k2
  exact noNewCB_download_missing gw k2

theorem noNewCB_head_operation (gw : Gateway) (cfg : Config) :
    NoNewCB (ObjectChecks.check_object_head_operation gw cfg) := by
  unfold ObjectChecks.check_object_head_operation
  apply noNewCB_bind noNewCB_getS
  intro st
  apply noNewCB_bind (noNewCB_generate_unique_name _)
  intro k
  apply noNewCB_catchS3
  · apply noNewCB_bind (noNewCB_gwCall _ _ (by rfl))
    intro put_response
    apply noNewCB_bind (noNewCB_add_cleanup_item _)
    intro _
    apply noNewCB_bind (noNewCB_gwCall _ _ (by rfl))
    intro response
    exact noNewCB_ite (noNewCB_resUnit _ _ _) (noNewCB_resUnit _ _ _)
  · intro e
    exact noNewCB_resUnit _ _ _

theorem noNewCB_copy (gw : Gateway) (cfg : Config) :
    NoNewCB (ObjectChecks.check_object_copy gw cfg) := by
  unfold ObjectChecks.check_object_copy
  apply noNewCB_bind noNewCB_getS
  intro st
  apply noNewCB_bind (noNewCB_generate_unique_name _)
  intro k1
  apply noNewCB_bind (noNewCB_generate_unique_name _)
  intro k2
  apply noNewCB_catchS3
  · apply noNewCB_bind (noNewCB_gwCall _ _ (by rfl))
    intro _
    apply noNewCB_bind (noNewCB_add_cleanup_item _)
    intro _
    apply noNewCB_bind (noNewCB_gwCall _ _ (by rfl))
    intro copy_response
    apply noNewCB_bind (noNewCB_add_cleanup_item _)
    intro _
    cases copy_response.copyObjectResult with
    | some cr =>
      apply noNewCB_ite
      · apply noNewCB_bind (noNewCB_gwCall _ _ (by rfl))
        intro get_response
        apply noNewCB_bind (noNewCB_readBody _)
        intro copied
        exact noNewCB_ite (noNewCB_resUnit _ _ _) (noNewCB_resUnit _ _ _)
      · exact noNewCB_resUnit _ _ _
    | none => exact noNewCB_resUnit _ _ _
  · intro e
    exact noNewCB_resUnit _ _ _

theorem noNewCB_listing (gw : Gateway) (cfg : Config) :
    NoNewCB (ObjectChecks.check_object_listing gw cfg) := by
  unfold ObjectChecks.check_object_listing
  apply noNewCB_bind noNewCB_getS
  intro st
  apply noNewCB_bind (noNewCB_generate_unique_name _)
  intro k
  apply noNewCB_catchS3
  · apply noNewCB_bind (noNewCB_gwCall _ _ (by rfl))
    intro _
    apply noNewCB_bind (noNewCB_add_cleanup_item _)
    intro _
    apply noNewCB_bind (noNewCB_gwCall _ _ (by rfl))
    intro _
    apply noNewCB_bind (noNewCB_add_cleanup_item _)
    intro _
    apply noNewCB_bind (noNewCB_gwCall _ _ (by rfl))
    intro _
    apply noNewCB_bind (noNewCB_add_cleanup_item _)
    intro _
    apply noNewCB_bind (noNewCB_gwCall _ _ (by rfl))
    intro response
    apply noNewCB_bind
    · cases response.contents with
      | some contents => exact noNewCB_ite (noNewCB_resUnit _ _ _) (noNewCB_resUnit _ _ _)
      | none => exact noNewCB_resUnit _ _ _
    · intro _
      apply noNewCB_bind (noNewCB_gwCall _ _ (by rfl))
      intro response_v1
      cases response_v1.contents with
      | some contents => exact noNewCB_ite (noNewCB_resUnit _ _ _) (noNewCB_resUnit _ _ _)
      | none => exact noNewCB_resUnit _ _ _
  · intro e
    exact noNewCB_resUnit _ _ _

theorem noNewCB_object_metadata (gw : Gateway) (cfg : Config) :
    NoNewCB (ObjectChecks.check_object_metadata gw cfg) := by
  unfold ObjectChecks.check_object_metadata
  apply noNewCB_bind noNewCB_getS
  intro st
  apply noNewCB_bind (noNewCB_generate_unique_name _)
  intro k
  apply noNewCB_catchS3
  · apply noNewCB_bind (noNewCB_gwCall _ _ (by rfl))
    intro _
    apply noNewCB_bind (noNewCB_add_cleanup_item _)
    intro _
    apply noNewCB_bind (noNewCB_gwCall _ _ (by rfl))
    intro _
    apply noNewCB_bind (noNewCB_gwCall _ _ (by rfl))
    intro tag_response
    apply noNewCB_ite
    · exact noNewCB_ite (noNewCB_resUnit _ _ _) (noNewCB_resUnit _ _ _)
    · exact noNewCB_resUnit _ _ _
  · intro e
    exact noNewCB_resUnit _ _ _

theorem noNewCB_deletion (gw : Gateway) (cfg : Config) :
    NoNewCB (ObjectChecks.check_object_deletion gw cfg) := by
  unfold ObjectChecks.check_object_deletion
  apply noNewCB_bind noNewCB_getS
  intro st
  apply noNewCB_bind (noNewCB_generate_unique_name _)
  intro k1
  apply noNewCB_bind
  · apply noNewCB_catchS3
    · apply noNewCB_bind (noNewCB_gwCall _ _ (by rfl))
      intro _
      apply noNewCB_bind (noNewCB_gwCall _ _ (by rfl))
      intro _
      apply noNewCB_catchS3
      · apply noNewCB_bind (noNewCB_gwCall _ _ (by rfl))
        intro _
        exact noNewCB_resUnit _ _ _
      · intro head_error
        exact noNewCB_ite (noNewCB_resUnit _ _ _) (noNewCB_resUnit _ _ _)
    · intro e
      exact noNewCB_resUnit _ _ _
  · intro _
    apply noNewCB_bind (noNewCB_generate_unique_name _)
    intro k2
    apply noNewCB_catchS3
    · apply noNewCB_bind (noNewCB_gwCall _ _ (by rfl))
      intro _
      exact noNewCB_resUnit _ _ _
    · intro e
      exact noNewCB_ite (noNewCB_resUnit _ _ _) (noNewCB_resUnit _ _ _)

theorem noNewCB_run_probes (gw : Gateway) (cfg : Config) :
    NoNewCB (ObjectChecks.run_probes gw cfg) := by
  unfold ObjectChecks.run_probes
  apply noNewCB_bind (noNewCB_upload gw cfg)
  intro _
  apply noNewCB_bind (noNewCB_download gw cfg)
  intro _
  apply noNewCB_bind (noNewCB_head_operation gw cfg)
  intro _
  apply noNewCB_bind (noNewCB_copy gw cfg)
  intro _
  apply noNewCB_bind (noNewCB_listing gw cfg)
  intro _
  apply noNewCB_bind (noNewCB_object_metadata gw cfg)
  intro _
  exact noNewCB_deletion gw cfg

end S3Spec

namespace S3Spec

theorem c4_early_return (gw : Gateway) (cfg : Config) (s : CatState) (e : S3ClientError)
    (h : gw.create_bucket ("object-test-bucket" ++ "-" ++ toString s.clock) = .error e) :
    ObjectChecks.run_checks gw cfg s =
      (.ok (s.results ++ [objectBucketFailResult e]),
       { s with clock := s.clock + 1,
                test_bucket := "object-test-bucket" ++ "-" ++ toString s.clock,
                events := s.events ++
                  [.call (.createBucket ("object-test-bucket" ++ "-" ++ toString s.clock)) false],
                results := s.results ++ [objectBucketFailResult e] }) := by
  simp only [ObjectChecks.run_checks, Bind.bind, CatM.bind, Pure.pure, CatM.pure,
    generate_unique_name, modifyS, catchS3, gwCall, add_result, add_cleanup_item, getS,
    CatState.logCall, objectBucketFailResult, h, ne_eq, ite_not, String.reduceEq, reduceIte,
    Bool.false_eq_true, if_false, ite_false]

end S3Spec

namespace S3Spec

theorem c4_callsCB_one (gw : Gateway) (cfg : Config) (s : CatState) :
    callsCB ((ObjectChecks.run_checks gw cfg s).2).events =
      callsCB s.events ++
        [("object-test-bucket" ++ "-" ++ toString s.clock,
          (gw.create_bucket ("object-test-bucket" ++ "-" ++ toString s.clock)).isOk)] := by
  rcases hcb : gw.create_bucket ("object-test-bucket" ++ "-" ++ toString s.clock) with e | r
  · rw [c4_early_return gw cfg s e hcb]
    simp [callsCB_append, callsCB, hcb, Except.isOk, Except.toBool]
  · have hstep : (ObjectChecks.run_checks gw cfg s).2 =
        (ObjectChecks.run_probes gw cfg
          { s with clock := s.clock + 1,
                   test_bucket := "object-test-bucket" ++ "-" ++ toString s.clock,
                   events := s.events ++
                     [.call (.createBucket ("object-test-bucket" ++ "-" ++ toString s.clock)) true] ++
                     [Event.registered
                       { itemType := "bucket",
                         identifier := "object-test-bucket" ++ "-" ++ toString s.clock }],
                   cleanup_items := s.cleanup_items ++
                     [{ itemType := "bucket",
                        identifier := "object-test-bucket" ++ "-" ++ toString s.clock }] }).2 := by
      simp only [ObjectChecks.run_checks, Bind.bind, CatM.bind, Pure.pure, CatM.pure,
        generate_unique_name, modifyS, catchS3, gwCall, add_result, add_cleanup_item, getS,
        CatState.logCall, hcb, ne_eq, ite_not, String.reduceEq, reduceIte,
        Bool.false_eq_true, if_false, ite_false, Bool.true_eq, if_true, ite_true]
      rcases hp : ObjectChecks.run_probes gw cfg
          { s with clock := s.clock + 1,
                   test_bucket := "object-test-bucket" ++ "-" ++ toString s.clock,
                   events := s.events ++
                     [.call (.createBucket ("object-test-bucket" ++ "-" ++ toString s.clock)) true] ++
                     [Event.registered
                       { itemType := "bucket",
                         identifier := "object-test-bucket" ++ "-" ++ toString s.clock }],
                   cleanup_items := s.cleanup_items ++
                     [{ itemType := "bucket",
                        identifier := "object-test-bucket" ++ "-" ++ toString s.clock }] }
        with ⟨x, s5⟩
      cases x <;> rfl
    rw [hstep, noNewCB_run_probes gw cfg]
    simp [callsCB_append, callsCB, hcb, Except.isOk, Except.toBool]

end S3Spec

namespace S3Spec

theorem noS3_run_probes (gw : Gateway) (cfg : Config) :
    NoS3 (ObjectChecks.run_probes gw cfg) := by
  unfold ObjectChecks.run_probes
  apply noS3_bind (noS3_upload gw cfg)
  intro _
  apply noS3_bind (noS3_download gw cfg)
  intro _
  apply noS3_bind (noS3_head_operation gw cfg)
  intro _
  apply noS3_bind (noS3_copy gw cfg)
  intro _
  apply noS3_bind (noS3_listing gw cfg)
  intro _
  apply noS3_bind (noS3_object_metadata gw cfg)
  intro _
  exact noS3_deletion gw cfg

theorem metadata_copy_preregisters (gw : Gateway) (cfg : Config) (s : CatState)
    (pr : PutObjectResp) (h : gw.put_object (metaCopyPutArgs cfg s) = .ok pr) :
    ∃ rest,
      ((MetadataChecks.check_metadata_copy_behavior gw cfg s).2).events =
        s.events ++
          [Event.call (.putObject s.test_bucket ("copy-source-metadata-" ++ toString s.clock)) true,
           Event.registered (metaSrcItem s),
           Event.registered (metaDestItem s)] ++ rest := by
  simp only [metaCopyPutArgs] at h
  unfold MetadataChecks.check_metadata_copy_behavior
  rcases hT : pr.eTag with _ | et <;>
  rcases hcp1 : gw.copy_object
      { bucket := s.test_bucket, key := "copy-dest-metadata-" ++ toString (s.clock + 1),
        srcBucket := s.test_bucket, srcKey := "copy-source-metadata-" ++ toString s.clock,
        metadata := none, metadataDirective := none } with e1 | cr1 <;>
  rcases hh1 : gw.head_object s.test_bucket
      ("copy-dest-metadata-" ++ toString (s.clock + 1)) with e2 | hr1 <;>
  rcases hcp2 : gw.copy_object
      { bucket := s.test_bucket,
        key := "copy-replacement-metadata-" ++ toString (s.clock + 1 + 1),
        srcBucket := s.test_bucket, srcKey := "copy-source-metadata-" ++ toString s.clock,
        metadata := some MetadataChecks.newMetadata,
        metadataDirective := some "REPLACE" } with e3 | cr2 <;>
  rcases hh2 : gw.head_object s.test_bucket
      ("copy-replacement-metadata-" ++ toString (s.clock + 1 + 1)) with e4 | hr2 <;>
  exact ⟨_, by
    simp [Bind.bind, CatM.bind, Pure.pure, CatM.pure, generate_unique_name, modifyS,
      catchS3, gwCall, add_result, add_cleanup_item, getS, CatState.logCall, metaSrcItem,
      metaDestItem, h, hT, hcp1, hh1, hcp2, hh2, List.append_assoc]
    try rfl⟩

end S3Spec

namespace S3Spec

theorem invalid_name_rejection (gw : Gateway) (s : CatState) (e : S3ClientError)
    (h : gw.create_bucket BucketChecks.invalidBucketName = .error e) :
    BucketChecks.check_bucket_creation_invalid gw s =
      (.ok (),
       { s with events := s.events ++
                  [.call (.createBucket BucketChecks.invalidBucketName) false],
                results := s.results ++ [invalidNameResult e] }) := by
  unfold BucketChecks.check_bucket_creation_invalid
  by_cases hc : (e.error_code == some "InvalidBucketName" ||
      e.error_code == some "BucketAlreadyExists") = true <;>
  simp [Bind.bind, CatM.bind, Pure.pure, CatM.pure, catchS3, gwCall, add_result,
    add_cleanup_item, getS, CatState.logCall, invalidNameResult, h, hc]

theorem invalid_name_success_flag (e : S3ClientError) :
    (invalidNameResult e).success =
      (e.error_code == some "InvalidBucketName" || e.error_code == some "BucketAlreadyExists") := by
  unfold invalidNameResult
  by_cases hc : (e.error_code == some "InvalidBucketName" ||
      e.error_code == some "BucketAlreadyExists") = true <;>
  simp [hc]

theorem missing_download_rejection (gw : Gateway) (k : String) (s : CatState)
    (e : S3ClientError) (h : gw.get_object s.test_bucket k = .error e) :
    ObjectChecks.check_object_download_missing gw k s =
      (.ok (),
       { s with events := s.events ++ [.call (.getObject s.test_bucket k) false],
                results := s.results ++ [nonexistentDownloadResult e] }) := by
  unfold ObjectChecks.check_object_download_missing
  by_cases hc : e.status_code = some 404 <;>
  simp [Bind.bind, CatM.bind, Pure.pure, CatM.pure, catchS3, gwCall, add_result,
    add_cleanup_item, getS, CatState.logCall, nonexistentDownloadResult, h, hc]

theorem missing_download_success_flag (e : S3ClientError) :
    (nonexistentDownloadResult e).success = decide (e.status_code = some 404) := by
  unfold nonexistentDownloadResult
  by_cases hc : e.status_code = some 404 <;>
  simp [hc]

theorem std_metadata_threshold (gw : Gateway) (cfg : Config) (k : String) (s : CatState)
    (pr : PutObjectResp) (hr : HeadObjectResp)
    (hput : gw.put_object
      { bucket := s.test_bucket, key := k,
        body := MetadataChecks.gen_test_data cfg 1024 none,
        extraHeaders := MetadataChecks.standardMetadata } = .ok pr)
    (hEt : pr.eTag ≠ none)
    (hhead : gw.head_object s.test_bucket k = .ok hr) :
    ((MetadataChecks.check_standard_metadata_headers_body gw cfg k s).2).results =
      s.results ++
        [{ name := "standard_metadata_headers",
           success := decide
             (metaSuccessRate (stdVerified hr) MetadataChecks.standardMetadata.length ≥ 0.8),
           message := "Standard metadata headers: " ++ toString (stdVerified hr) ++ "/" ++
             toString MetadataChecks.standardMetadata.length ++ " preserved correctly" }] := by
  unfold MetadataChecks.check_standard_metadata_headers_body
  simp [Bind.bind, CatM.bind, Pure.pure, CatM.pure, catchS3, gwCall, add_result,
    add_cleanup_item, getS, CatState.logCall, stdVerified, hput, hEt, hhead]

theorem custom_metadata_threshold (gw : Gateway) (cfg : Config) (k : String) (s : CatState)
    (pr : PutObjectResp) (hr : HeadObjectResp)
    (hput : gw.put_object
      { bucket := s.test_bucket, key := k,
        body := MetadataChecks.gen_test_data cfg 512 none,
        metadata := MetadataChecks.customMetadata,
        contentType := some "text/plain" } = .ok pr)
    (hEt : pr.eTag ≠ none)
    (hhead : gw.head_object s.test_bucket k = .ok hr) :
    ((MetadataChecks.check_custom_metadata_body gw cfg k s).2).results =
      s.results ++
        [{ name := "custom_metadata_preservation",
           success := decide
             (metaSuccessRate (customVerified hr) MetadataChecks.customMetadata.length ≥ 0.9),
           message := "Custom metadata: " ++ toString (customVerified hr) ++ "/" ++
             toString MetadataChecks.customMetadata.length ++ " fields preserved correctly" }] := by
  unfold MetadataChecks.check_custom_metadata_body
  simp [Bind.bind, CatM.bind, Pure.pure, CatM.pure, catchS3, gwCall, add_result,
    add_cleanup_item, getS, CatState.logCall, customVerified, hput, hEt, hhead]

theorem encoding_metadata_threshold (gw : Gateway) (cfg : Config) (k : String) (s : CatState)
    (pr : PutObjectResp) (hr : HeadObjectResp)
    (hput : gw.put_object
      { bucket := s.test_bucket, key := k,
        body := MetadataChecks.gen_test_data cfg 256 none,
        metadata := MetadataChecks.encodingMetadata,
        contentType := some "application/octet-stream" } = .ok pr)
    (hEt : pr.eTag ≠ none)
    (hhead : gw.head_object s.test_bucket k = .ok hr) :
    ((MetadataChecks.check_metadata_encoding_body gw cfg k s).2).results =
      s.results ++
        [{ name := "metadata_encoding_handling",
           success := decide
             (metaSuccessRate (encVerified hr) MetadataChecks.encodingMetadata.length ≥ 0.7),
           message := "Metadata encoding: " ++ toString (encVerified hr) ++ "/" ++
             toString MetadataChecks.encodingMetadata.length ++ " values preserved correctly" }] := by
  unfold MetadataChecks.check_metadata_encoding_body
  simp [Bind.bind, CatM.bind, Pure.pure, CatM.pure, catchS3, gwCall, add_result,
    add_cleanup_item, getS, CatState.logCall, encVerified, hput, hEt, hhead]

end S3Spec

namespace S3Spec

set_option maxRecDepth 8000

/-- C5 witness: the mixed registry of `sMixed` drained against `gwAllOk`:
objects first, then multipart uploads, then buckets; the trace is the
concatenation of the per-item teardowns; and teardown of the bucket item
`bItemW` lists remaining objects before the `delete_bucket` attempt. -/
theorem c5_witness :
    (cleanupOrder sMixed.cleanup_items =
        sMixed.cleanup_items.filter (fun it => it.itemType == "object") ++
        sMixed.cleanup_items.filter (fun it => it.itemType == "multipart_upload") ++
        sMixed.cleanup_items.filter (fun it => it.itemType == "bucket") ++
        priFilter 3 sMixed.cleanup_items) ∧
    (cleanupRun gwAllOk sMixed).2.events =
      sMixed.events ++
        ((cleanupOrder sMixed.cleanup_items).map (cleanupItemEvents gwAllOk)).flatten ∧
    (∃ listAndDeletes ok,
        cleanupItemEvents gwAllOk bItemW =
          listAndDeletes ++ [Event.call (.deleteBucket bItemW.identifier) ok] ∧
        (listAndDeletes.head? =
            some (Event.call (.listObjectsV2 bItemW.identifier none) true) ∨
         listAndDeletes = [Event.call (.listObjectsV2 bItemW.identifier none) false]) ∧
        ∀ ev ∈ listAndDeletes.tail,
          ∃ k okk, ev = Event.call (.deleteObject (some bItemW.identifier) k none) okk) :=
  cleanup_drain_order gwAllOk sMixed bItemW rfl

/-- C2 is refuted as frozen (see `c2_counterexample`); amended: every
probe of the object category is exception-isolated at the probe boundary
for the wrapper's `S3ClientError` only (no such error ever escapes
`run_probes`), and under the gateway `gwProbe3Fail`, whose `head_object`
fails on the head probe's key, all seven probes still run and produce all
twelve `CheckResult`s; but there is no category-runner safety net for
other exceptions. -/
theorem c2_probe_isolation_amended :
    (∀ gw cfg, NoS3 (ObjectChecks.run_probes gw cfg)) ∧
    (ObjectChecks.run_checks gwProbe3Fail cfgTiny objInit).1.isOk = true ∧
    ((ObjectChecks.run_checks gwProbe3Fail cfgTiny objInit).2.results.map
      (fun r => (r.name, r.success))) =
      [("object_upload_small", true), ("object_upload_medium", true),
       ("object_upload_with_metadata", true), ("object_download", false),
       ("object_download_nonexistent", true), ("object_head_operation", false),
       ("object_copy", false), ("object_listing_v2", false), ("object_listing_v1", false),
       ("object_tagging", false), ("object_deletion", false),
       ("object_deletion_nonexistent", true)] :=
  ⟨fun gw cfg => noS3_run_probes gw cfg, by decide, by decide⟩

/-- C2 witness: a concrete instance of the probe-boundary isolation — the
probe sequence never ends in an `S3ClientError` even when every gateway
call fails. -/
theorem c2_witness :
    (ObjectChecks.run_probes gwAllFail cfgTiny objInit).1 ≠
      Except.error (Exn.s3 errGeneric) :=
  c2_probe_isolation_amended.1 gwAllFail cfgTiny objInit errGeneric

/-- C3 is refuted as frozen (see `c3_counterexample`); amended: in the
object category every cleanup registration follows the successful gateway
call that created that resource (the registration discipline is preserved
by the whole category run); but `_check_metadata_copy_behavior` registers
its copy-destination key right after the source upload, before any copy
is attempted. -/
theorem c3_registration_discipline_amended :
    (∀ gw cfg, JustOK1 (ObjectChecks.run_checks gw cfg)) ∧
    (∀ gw cfg s pr, gw.put_object (metaCopyPutArgs cfg s) = .ok pr →
      ∃ rest,
        ((MetadataChecks.check_metadata_copy_behavior gw cfg s).2).events =
          s.events ++
            [Event.call (.putObject s.test_bucket
               ("copy-source-metadata-" ++ toString s.clock)) true,
             Event.registered (metaSrcItem s),
             Event.registered (metaDestItem s)] ++ rest) :=
  ⟨fun gw cfg => justOK1_object_run_checks gw cfg,
   fun gw cfg s pr h => metadata_copy_preregisters gw cfg s pr h⟩

/-- C3 witness: the object category run under `gwProbe3Fail` keeps the
registration discipline, and under `gwCopyFail` the copy probe's trace
starts with the source upload followed immediately by BOTH registrations. -/
theorem c3_witness :
    regJustifiedB []
      ((ObjectChecks.run_checks gwProbe3Fail cfgTiny objInit).2).events = true ∧
    (∃ rest,
      ((MetadataChecks.check_metadata_copy_behavior gwCopyFail cfgTiny metaInit).2).events =
        metaInit.events ++
          [Event.call (.putObject metaInit.test_bucket
             ("copy-source-metadata-" ++ toString metaInit.clock)) true,
           Event.registered (metaSrcItem metaInit),
           Event.registered (metaDestItem metaInit)] ++ rest) :=
  ⟨c3_registration_discipline_amended.1 gwProbe3Fail cfgTiny objInit [] (by decide),
   c3_registration_discipline_amended.2 gwCopyFail cfgTiny metaInit
     { eTag := some "etag-1" } (by decide)⟩

/-- C4 is refuted as frozen for the bucket category (see
`c4_counterexample`); amended for the object category: `run_checks` makes
exactly one scoped `create_bucket` attempt (the probes make none), and if
that creation fails it appends exactly one failing result and returns
early with no probe executed and nothing registered. -/
theorem c4_scoped_bucket_amended :
    (∀ gw cfg s e,
      gw.create_bucket ("object-test-bucket" ++ "-" ++ toString s.clock) = .error e →
      ObjectChecks.run_checks gw cfg s =
        (.ok (s.results ++ [objectBucketFailResult e]),
         { s with clock := s.clock + 1,
                  test_bucket := "object-test-bucket" ++ "-" ++ toString s.clock,
                  events := s.events ++
                    [.call (.createBucket
                      ("object-test-bucket" ++ "-" ++ toString s.clock)) false],
                  results := s.results ++ [objectBucketFailResult e] })) ∧
    (∀ gw cfg s,
      callsCB ((ObjectChecks.run_checks gw cfg s).2).events =
        callsCB s.events ++
          [("object-test-bucket" ++ "-" ++ toString s.clock,
            (gw.create_bucket ("object-test-bucket" ++ "-" ++ toString s.clock)).isOk)]) :=
  ⟨fun gw cfg s e h => c4_early_return gw cfg s e h,
   fun gw cfg s => c4_callsCB_one gw cfg s⟩

/-- C4 witness: under `gwAllFail` the object category returns early with
the single bucket-creation failure, and its trace holds exactly one
`create_bucket` attempt. -/
theorem c4_witness :
    ObjectChecks.run_checks gwAllFail cfgTiny objInit =
      (.ok (objInit.results ++ [objectBucketFailResult errGeneric]),
       { objInit with
           clock := objInit.clock + 1,
           test_bucket := "object-test-bucket" ++ "-" ++ toString objInit.clock,
           events := objInit.events ++
             [.call (.createBucket
               ("object-test-bucket" ++ "-" ++ toString objInit.clock)) false],
           results := objInit.results ++ [objectBucketFailResult errGeneric] }) ∧
    callsCB ((ObjectChecks.run_checks gwAllFail cfgTiny objInit).2).events =
      callsCB objInit.events ++
        [("object-test-bucket" ++ "-" ++ toString objInit.clock,
          (gwAllFail.create_bucket
            ("object-test-bucket" ++ "-" ++ toString objInit.clock)).isOk)] :=
  ⟨c4_scoped_bucket_amended.1 gwAllFail cfgTiny objInit errGeneric rfl,
   c4_scoped_bucket_amended.2 gwAllFail cfgTiny objInit⟩

/-- C8 is false as stated: the invalid-bucket-name probe does not accept
by HTTP status — under `gwInvalid403`, which rejects the invalid name
with HTTP 403 (`AccessDenied`), the probe records a FAILING result even
though 403 lies in the claim's accepted set {400, 403}. -/
theorem c8_counterexample :
    err403.status_code = some 403 ∧
    ((BucketChecks.check_bucket_creation_invalid gwInvalid403 bktInit).2.results.map
      (fun r => (r.name, r.success))) = [("bucket_creation_invalid_name", false)] := by
  decide

/-- C8 (amended): when the gateway rejects the invalid-name creation, the
probe appends exactly one result that passes iff the error CODE is
`InvalidBucketName` or `BucketAlreadyExists` (the HTTP status is not
consulted); the nonexistent-download probe does pass iff the error's HTTP
status is 404, as the claim says for missing-resource errors. -/
theorem c8_rejection_criteria_amended :
    (∀ gw s e, gw.create_bucket BucketChecks.invalidBucketName = .error e →
      BucketChecks.check_bucket_creation_invalid gw s =
        (.ok (),
         { s with events := s.events ++
                    [.call (.createBucket BucketChecks.invalidBucketName) false],
                  results := s.results ++ [invalidNameResult e] })) ∧
    (∀ e, (invalidNameResult e).success =
      (e.error_code == some "InvalidBucketName" ||
       e.error_code == some "BucketAlreadyExists")) ∧
    (∀ gw k s e, gw.get_object s.test_bucket k = .error e →
      ObjectChecks.check_object_download_missing gw k s =
        (.ok (),
         { s with events := s.events ++ [.call (.getObject s.test_bucket k) false],
                  results := s.results ++ [nonexistentDownloadResult e] })) ∧
    (∀ e, (nonexistentDownloadResult e).success = decide (e.status_code = some 404)) :=
  ⟨fun gw s e h => invalid_name_rejection gw s e h,
   fun e => invalid_name_success_flag e,
   fun gw k s e h => missing_download_rejection gw k s e h,
   fun e => missing_download_success_flag e⟩

/-- C8 witness: the two rejection probes instantiated — the invalid-name
rejection with `err403` and the nonexistent download with `errGeneric`. -/
theorem c8_witness :
    BucketChecks.check_bucket_creation_invalid gwInvalid403 bktInit =
      (.ok (),
       { bktInit with
           events := bktInit.events ++
             [.call (.createBucket BucketChecks.invalidBucketName) false],
           results := bktInit.results ++ [invalidNameResult err403] }) ∧
    ObjectChecks.check_object_download_missing gwAllFail "k" objInit =
      (.ok (),
       { objInit with
           events := objInit.events ++ [.call (.getObject objInit.test_bucket "k") false],
           results := objInit.results ++ [nonexistentDownloadResult errGeneric] }) :=
  ⟨c8_rejection_criteria_amended.1 gwInvalid403 bktInit err403 (by decide),
   c8_rejection_criteria_amended.2.2.1 gwAllFail "k" objInit errGeneric rfl⟩

/-- C10: each threshold probe, once its upload returned an ETag and the
head succeeded, appends exactly one result whose pass flag is the
comparison of the preserved fraction against the probe's fixed threshold —
0.8 for standard headers, 0.9 for custom metadata, 0.7 for encoded
values; and 8 of 10 preserved meets an 0.8 threshold while 7 of 10 does
not. -/
theorem c10_threshold_probes :
    (∀ gw cfg k s (pr : PutObjectResp) hr,
      gw.put_object
        { bucket := s.test_bucket, key := k,
          body := MetadataChecks.gen_test_data cfg 1024 none,
          extraHeaders := MetadataChecks.standardMetadata } = .ok pr →
      pr.eTag ≠ none →
      gw.head_object s.test_bucket k = .ok hr →
      ((MetadataChecks.check_standard_metadata_headers_body gw cfg k s).2).results =
        s.results ++
          [{ name := "standard_metadata_headers",
             success := decide
               (metaSuccessRate (stdVerified hr) MetadataChecks.standardMetadata.length ≥ 0.8),
             message := "Standard metadata headers: " ++ toString (stdVerified hr) ++ "/" ++
               toString MetadataChecks.standardMetadata.length ++ " preserved correctly" }]) ∧
    (∀ gw cfg k s (pr : PutObjectResp) hr,
      gw.put_object
        { bucket := s.test_bucket, key := k,
          body := MetadataChecks.gen_test_data cfg 512 none,
          metadata := MetadataChecks.customMetadata,
          contentType := some "text/plain" } = .ok pr →
      pr.eTag ≠ none →
      gw.head_object s.test_bucket k = .ok hr →
      ((MetadataChecks.check_custom_metadata_body gw cfg k s).2).results =
        s.results ++
          [{ name := "custom_metadata_preservation",
             success := decide
               (metaSuccessRate (customVerified hr) MetadataChecks.customMetadata.length ≥ 0.9),
             message := "Custom metadata: " ++ toString (customVerified hr) ++ "/" ++
               toString MetadataChecks.customMetadata.length ++ " fields preserved correctly" }]) ∧
    (∀ gw cfg k s (pr : PutObjectResp) hr,
      gw.put_object
        { bucket := s.test_bucket, key := k,
          body := MetadataChecks.gen_test_data cfg 256 none,
          metadata := MetadataChecks.encodingMetadata,
          contentType := some "application/octet-stream" } = .ok pr →
      pr.eTag ≠ none →
      gw.head_object s.test_bucket k = .ok hr →
      ((MetadataChecks.check_metadata_encoding_body gw cfg k s).2).results =
        s.results ++
          [{ name := "metadata_encoding_handling",
             success := decide
               (metaSuccessRate (encVerified hr) MetadataChecks.encodingMetadata.length ≥ 0.7),
             message := "Metadata encoding: " ++ toString (encVerified hr) ++ "/" ++
               toString MetadataChecks.encodingMetadata.length ++ " values preserved correctly" }]) ∧
    metaSuccessRate 8 10 ≥ 0.8 ∧ ¬ (metaSuccessRate 7 10 ≥ 0.8) :=
  ⟨fun gw cfg k s pr hr h1 h2 h3 => std_metadata_threshold gw cfg k s pr hr h1 h2 h3,
   fun gw cfg k s pr hr h1 h2 h3 => custom_metadata_threshold gw cfg k s pr hr h1 h2 h3,
   fun gw cfg k s pr hr h1 h2 h3 => encoding_metadata_threshold gw cfg k s pr hr h1 h2 h3,
   by norm_num [metaSuccessRate], by norm_num [metaSuccessRate]⟩

/-- C10 witness: the three threshold probes instantiated at `gwMetaHead`,
whose head response preserves 5 of 6 standard headers (pass at 0.8),
7 of 7 custom fields (pass at 0.9) and 4 of 7 encoded values (fail at
0.7). -/
theorem c10_witness :
    ((MetadataChecks.check_standard_metadata_headers_body gwMetaHead cfgTiny "k" metaInit).2).results =
      metaInit.results ++
        [{ name := "standard_metadata_headers",
           success := decide
             (metaSuccessRate (stdVerified metaHeadResp)
               MetadataChecks.standardMetadata.length ≥ 0.8),
           message := "Standard metadata headers: " ++ toString (stdVerified metaHeadResp) ++
             "/" ++ toString MetadataChecks.standardMetadata.length ++
             " preserved correctly" }] ∧
    ((MetadataChecks.check_custom_metadata_body gwMetaHead cfgTiny "k" metaInit).2).results =
      metaInit.results ++
        [{ name := "custom_metadata_preservation",
           success := decide
             (metaSuccessRate (customVerified metaHeadResp)
               MetadataChecks.customMetadata.length ≥ 0.9),
           message := "Custom metadata: " ++ toString (customVerified metaHeadResp) ++ "/" ++
             toString MetadataChecks.customMetadata.length ++
             " fields preserved correctly" }] ∧
    ((MetadataChecks.check_metadata_encoding_body gwMetaHead cfgTiny "k" metaInit).2).results =
      metaInit.results ++
        [{ name := "metadata_encoding_handling",
           success := decide
             (metaSuccessRate (encVerified metaHeadResp)
               MetadataChecks.encodingMetadata.length ≥ 0.7),
           message := "Metadata encoding: " ++ toString (encVerified metaHeadResp) ++ "/" ++
             toString MetadataChecks.encodingMetadata.length ++
             " values preserved correctly" }] :=
  ⟨c10_threshold_probes.1 gwMetaHead cfgTiny "k" metaInit
     { eTag := some "etag-1" } metaHeadResp rfl (by decide) rfl,
   c10_threshold_probes.2.1 gwMetaHead cfgTiny "k" metaInit
     { eTag := some "etag-1" } metaHeadResp rfl (by decide) rfl,
   c10_threshold_probes.2.2.1 gwMetaHead cfgTiny "k" metaInit
     { eTag := some "etag-1" } metaHeadResp rfl (by decide) rfl⟩

end S3Spec
